import Mathlib

/-!
The credential core of gRPC: `src/core/lib/security/credentials/credentials.c`.

A shallow embedding of the C file.  Memory is an explicit `World` of typed
heaps indexed by addresses (`NULL` is address 0).  Function-pointer entries of
the capability tables are addresses too (`NULL` when the entry is missing);
what a non-null entry does when it is called is given by an environment `Env`,
over which every theorem quantifies.  Each call the core makes through a
function pointer, each `gpr_free` and each `gpr_log` is appended to a trace, so
that "invoked exactly once" and "invoked before" are statements about traces.
A core function returns `none` when the C code would crash (a failed
`GPR_ASSERT`, a dereference of a null or dangling pointer).

The `grpc_exec_ctx *exec_ctx` parameter is only ever handed on to the table
entries and is left out of the embedding.
-/

namespace Grpc

/-- An address.  `NULL` is address 0. -/
abbrev Ptr := Nat

/-- The address of a function; `NULL` when the table entry is missing. -/
abbrev FnPtr := Nat

/-- The null pointer. -/
abbrev NULL : Nat := 0

/-! ## Data model -/

/-- The `grpc_security_status` codes. -/
inductive grpc_security_status where
  | GRPC_SECURITY_OK
  | GRPC_SECURITY_ERROR
  deriving DecidableEq, Repr

/-- Capability table of a channel credential. -/
structure grpc_channel_credentials_vtable where
  destruct : FnPtr
  create_security_connector : FnPtr
  duplicate_without_call_credentials : FnPtr
  deriving DecidableEq, Repr

/-- The fields of `grpc_channel_credentials` this file uses.  `vtable` is a
pointer in C: `none` is the null table pointer. -/
structure grpc_channel_credentials where
  vtable : Option grpc_channel_credentials_vtable
  refcount : Int
  deriving DecidableEq, Repr

/-- Capability table of a call credential. -/
structure grpc_call_credentials_vtable where
  destruct : FnPtr
  get_request_metadata : FnPtr
  cancel_get_request_metadata : FnPtr
  deriving DecidableEq, Repr

/-- The fields of `grpc_call_credentials` this file uses. -/
structure grpc_call_credentials where
  vtable : Option grpc_call_credentials_vtable
  refcount : Int
  deriving DecidableEq, Repr

/-- The processor triple `grpc_auth_metadata_processor`. -/
structure grpc_auth_metadata_processor where
  process : FnPtr
  destroy : FnPtr
  state : Ptr
  deriving DecidableEq, Repr

/-- Capability table of a server credential. -/
structure grpc_server_credentials_vtable where
  destruct : FnPtr
  create_security_connector : FnPtr
  deriving DecidableEq, Repr

/-- The fields of `grpc_server_credentials` this file uses. -/
structure grpc_server_credentials where
  vtable : Option grpc_server_credentials_vtable
  refcount : Int
  processor : grpc_auth_metadata_processor
  deriving DecidableEq, Repr

/-- The response buffer `grpc_http_response` held by a metadata request. -/
structure grpc_http_response where
  status : Int
  hdr_count : Nat
  hdrs : Ptr
  body_length : Nat
  body : Ptr
  deriving DecidableEq, Repr

/-- The object `grpc_credentials_metadata_request`. -/
structure grpc_credentials_metadata_request where
  creds : Ptr
  response : grpc_http_response
  deriving DecidableEq, Repr

/-- Memory: one heap per object type, the pointer-sized cells that serve as
output slots (`*sc`, `*new_args`, `*error`), and the metadata arrays. -/
structure World where
  channel_creds : Ptr → Option grpc_channel_credentials
  call_creds : Ptr → Option grpc_call_credentials
  server_creds : Ptr → Option grpc_server_credentials
  requests : Ptr → Option grpc_credentials_metadata_request
  cells : Ptr → Ptr
  mdarrays : Ptr → List Nat

/-- What the core is seen doing: calls through function pointers, frees, log
lines. -/
inductive Event where
  | channel_destruct (fn : FnPtr) (creds : Ptr)
  | call_destruct (fn : FnPtr) (creds : Ptr)
  | server_destruct (fn : FnPtr) (creds : Ptr)
  | processor_destroy (fn : FnPtr) (state : Ptr)
  | get_request_metadata (fn : FnPtr) (creds pollent context md_array on_request_metadata error : Ptr)
  | cancel_get_request_metadata (fn : FnPtr) (creds md_array error : Ptr)
  | channel_create_security_connector (fn : FnPtr) (creds call_creds target args sc new_args : Ptr)
  | server_create_security_connector (fn : FnPtr) (creds sc : Ptr)
  | duplicate_without_call_credentials (fn : FnPtr) (creds : Ptr)
  | free (p : Ptr)
  | log (msg : String)
  deriving DecidableEq, Repr

/-- The behaviour of the code behind the function pointers: each entry maps
the function address and the arguments of the call to what the call does to
memory (and to what it returns). -/
structure Env where
  channel_destruct : FnPtr → Ptr → World → World
  call_destruct : FnPtr → Ptr → World → World
  server_destruct : FnPtr → Ptr → World → World
  processor_destroy : FnPtr → Ptr → World → World
  get_request_metadata : FnPtr → Ptr → Ptr → Ptr → Ptr → Ptr → Ptr → World → Bool × World
  cancel_get_request_metadata : FnPtr → Ptr → Ptr → Ptr → World → World
  channel_create_security_connector :
    FnPtr → Ptr → Ptr → Ptr → Ptr → Ptr → Ptr → World → grpc_security_status × World
  server_create_security_connector : FnPtr → Ptr → Ptr → World → grpc_security_status × World
  duplicate_without_call_credentials : FnPtr → Ptr → World → Ptr × World

/-- Memory together with the trace of what the core has done so far. -/
structure State where
  world : World
  trace : List Event

/-- Overwrite the channel credential stored at `p` (`none` frees the address). -/
def World.set_channel (w : World) (p : Ptr) (c : Option grpc_channel_credentials) : World :=
  { w with channel_creds := Function.update w.channel_creds p c }

/-- Overwrite the call credential stored at `p`. -/
def World.set_call (w : World) (p : Ptr) (c : Option grpc_call_credentials) : World :=
  { w with call_creds := Function.update w.call_creds p c }

/-- Overwrite the server credential stored at `p`. -/
def World.set_server (w : World) (p : Ptr) (c : Option grpc_server_credentials) : World :=
  { w with server_creds := Function.update w.server_creds p c }

/-- Overwrite the pointer cell at address `p`. -/
def World.set_cell (w : World) (p : Ptr) (v : Ptr) : World :=
  { w with cells := Function.update w.cells p v }

/-! ## Support-library primitives -/

/-- Modelled from the spec: `gpr_ref` of the support library (`sync`), whose
code is not in this file.  The spec: acquire "atomically increments refcount",
"refcount += 1", the refcount being an integer. -/
def gpr_ref (count : Int) : Int := count + 1

/-- Modelled from the spec: `gpr_unref` of the support library (`sync`), whose
code is not in this file.  The spec: release "atomically decrements refcount;
if the result is zero" the object is torn down.  Returns the flag "the result
is zero" and the new count. -/
def gpr_unref (count : Int) : Bool × Int := (decide (count - 1 = 0), count - 1)

/-! ## Channel credentials: lifetime -/

/-- `grpc_channel_credentials_ref` (lines 55-60). -/
def grpc_channel_credentials_ref (creds : Ptr) (st : State) : Option (Ptr × State) :=
  if creds = NULL then some (NULL, st)
  else
    match st.world.channel_creds creds with
    | none => none
    | some c =>
      let c1 : grpc_channel_credentials := { c with refcount := gpr_ref c.refcount }
      some (creds, { st with world := st.world.set_channel creds (some c1) })

/-- `grpc_channel_credentials_unref` (lines 62-71). -/
def grpc_channel_credentials_unref (env : Env) (creds : Ptr) (st : State) : Option State :=
  if creds = NULL then some st
  else
    match st.world.channel_creds creds with
    | none => none
    | some c =>
      let c1 : grpc_channel_credentials := { c with refcount := (gpr_unref c.refcount).2 }
      let st1 : State := { st with world := st.world.set_channel creds (some c1) }
      if (gpr_unref c.refcount).1 then
        match c.vtable with
        | none => none
        | some vt =>
          let st2 : State :=
            if vt.destruct ≠ NULL then
              { world := env.channel_destruct vt.destruct creds st1.world,
                trace := st1.trace ++ [Event.channel_destruct vt.destruct creds] }
            else st1
          some { world := st2.world.set_channel creds none,
                 trace := st2.trace ++ [Event.free creds] }
      else some st1

/-! ## Call credentials: lifetime -/

/-- `grpc_call_credentials_ref` (lines 80-84). -/
def grpc_call_credentials_ref (creds : Ptr) (st : State) : Option (Ptr × State) :=
  if creds = NULL then some (NULL, st)
  else
    match st.world.call_creds creds with
    | none => none
    | some c =>
      let c1 : grpc_call_credentials := { c with refcount := gpr_ref c.refcount }
      some (creds, { st with world := st.world.set_call creds (some c1) })

/-- `grpc_call_credentials_unref` (lines 86-95). -/
def grpc_call_credentials_unref (env : Env) (creds : Ptr) (st : State) : Option State :=
  if creds = NULL then some st
  else
    match st.world.call_creds creds with
    | none => none
    | some c =>
      let c1 : grpc_call_credentials := { c with refcount := (gpr_unref c.refcount).2 }
      let st1 : State := { st with world := st.world.set_call creds (some c1) }
      if (gpr_unref c.refcount).1 then
        match c.vtable with
        | none => none
        | some vt =>
          let st2 : State :=
            if vt.destruct ≠ NULL then
              { world := env.call_destruct vt.destruct creds st1.world,
                trace := st1.trace ++ [Event.call_destruct vt.destruct creds] }
            else st1
          some { world := st2.world.set_call creds none,
                 trace := st2.trace ++ [Event.free creds] }
      else some st1

/-! ## Server credentials: lifetime and processor slot -/

/-- `grpc_server_credentials_ref` (lines 193-198). -/
def grpc_server_credentials_ref (creds : Ptr) (st : State) : Option (Ptr × State) :=
  if creds = NULL then some (NULL, st)
  else
    match st.world.server_creds creds with
    | none => none
    | some c =>
      let c1 : grpc_server_credentials := { c with refcount := gpr_ref c.refcount }
      some (creds, { st with world := st.world.set_server creds (some c1) })

/-- The guarded call `if (creds->processor.destroy != NULL &&
creds->processor.state != NULL) creds->processor.destroy(creds->processor.state)`
shared by lines 207-209 and 239-241, for the processor `q` read from the
credential. -/
def destroy_processor (env : Env) (q : grpc_auth_metadata_processor) (st : State) : State :=
  if q.destroy ≠ NULL ∧ q.state ≠ NULL then
    { world := env.processor_destroy q.destroy q.state st.world,
      trace := st.trace ++ [Event.processor_destroy q.destroy q.state] }
  else st

/-- `grpc_server_credentials_unref` (lines 200-212).  The processor is read
from memory after `destruct` has returned. -/
def grpc_server_credentials_unref (env : Env) (creds : Ptr) (st : State) : Option State :=
  if creds = NULL then some st
  else
    match st.world.server_creds creds with
    | none => none
    | some c =>
      let c1 : grpc_server_credentials := { c with refcount := (gpr_unref c.refcount).2 }
      let st1 : State := { st with world := st.world.set_server creds (some c1) }
      if (gpr_unref c.refcount).1 then
        match c.vtable with
        | none => none
        | some vt =>
          let st2 : State :=
            if vt.destruct ≠ NULL then
              { world := env.server_destruct vt.destruct creds st1.world,
                trace := st1.trace ++ [Event.server_destruct vt.destruct creds] }
            else st1
          match st2.world.server_creds creds with
          | none => none
          | some c2 =>
            let st3 : State := destroy_processor env c2.processor st2
            some { world := st3.world.set_server creds none,
                   trace := st3.trace ++ [Event.free creds] }
      else some st1

/-- `grpc_server_credentials_set_auth_metadata_processor` (lines 231-243).  The
`GRPC_API_TRACE` line prints the arguments without dereferencing them and is
left out. -/
def grpc_server_credentials_set_auth_metadata_processor (env : Env) (creds : Ptr)
    (processor : grpc_auth_metadata_processor) (st : State) : Option State :=
  if creds = NULL then some st
  else
    match st.world.server_creds creds with
    | none => none
    | some c =>
      let st1 : State := destroy_processor env c.processor st
      match st1.world.server_creds creds with
      | none => none
      | some c1 =>
        let c2 : grpc_server_credentials := { c1 with processor := processor }
        some { st1 with world := st1.world.set_server creds (some c2) }

/-! ## Metadata fetch and cancel -/

/-- `grpc_call_credentials_get_request_metadata` (lines 104-114).  The auth
context, passed by value in C, is an opaque number here. -/
def grpc_call_credentials_get_request_metadata (env : Env)
    (creds pollent context md_array on_request_metadata error : Ptr) (st : State) :
    Option (Bool × State) :=
  if creds = NULL then some (true, st)
  else
    match st.world.call_creds creds with
    | none => none
    | some c =>
      match c.vtable with
      | none => none
      | some vt =>
        if vt.get_request_metadata = NULL then some (true, st)
        else
          let r := env.get_request_metadata vt.get_request_metadata creds pollent context
            md_array on_request_metadata error st.world
          some (r.1, { world := r.2,
                       trace := st.trace ++ [Event.get_request_metadata vt.get_request_metadata
                         creds pollent context md_array on_request_metadata error] })

/-- `grpc_call_credentials_cancel_get_request_metadata` (lines 116-123). -/
def grpc_call_credentials_cancel_get_request_metadata (env : Env)
    (creds md_array error : Ptr) (st : State) : Option State :=
  if creds = NULL then some st
  else
    match st.world.call_creds creds with
    | none => none
    | some c =>
      match c.vtable with
      | none => none
      | some vt =>
        if vt.cancel_get_request_metadata = NULL then some st
        else
          some { world := env.cancel_get_request_metadata vt.cancel_get_request_metadata
                   creds md_array error st.world,
                 trace := st.trace ++ [Event.cancel_get_request_metadata
                   vt.cancel_get_request_metadata creds md_array error] }

/-! ## Security connector factory -/

/-- `grpc_channel_credentials_create_security_connector` (lines 125-136).  The
first statement stores `NULL` through `new_args`; the assertion on the table
entry aborts when the entry is missing; the table entry is called with a
literal `NULL` in the call-credential position. -/
def grpc_channel_credentials_create_security_connector (env : Env)
    (channel_creds target args sc new_args : Ptr) (st : State) :
    Option (grpc_security_status × State) :=
  if new_args = NULL then none
  else
    let st1 : State := { st with world := st.world.set_cell new_args NULL }
    if channel_creds = NULL then some (grpc_security_status.GRPC_SECURITY_ERROR, st1)
    else
      match st1.world.channel_creds channel_creds with
      | none => none
      | some c =>
        match c.vtable with
        | none => none
        | some vt =>
          if vt.create_security_connector = NULL then none
          else
            let r := env.channel_create_security_connector vt.create_security_connector
              channel_creds NULL target args sc new_args st1.world
            some (r.1, { world := r.2,
                         trace := st1.trace ++ [Event.channel_create_security_connector
                           vt.create_security_connector channel_creds NULL target args sc
                           new_args] })

/-- `grpc_server_credentials_create_security_connector` (lines 221-229). -/
def grpc_server_credentials_create_security_connector (env : Env)
    (creds sc : Ptr) (st : State) : Option (grpc_security_status × State) :=
  let failed : State :=
    { st with trace := st.trace ++ [Event.log "Server credentials cannot create security context."] }
  if creds = NULL then some (grpc_security_status.GRPC_SECURITY_ERROR, failed)
  else
    match st.world.server_creds creds with
    | none => none
    | some c =>
      match c.vtable with
      | none => none
      | some vt =>
        if vt.create_security_connector = NULL then
          some (grpc_security_status.GRPC_SECURITY_ERROR, failed)
        else
          let r := env.server_create_security_connector vt.create_security_connector creds sc
            st.world
          some (r.1, { world := r.2,
                       trace := st.trace ++ [Event.server_create_security_connector
                         vt.create_security_connector creds sc] })

/-- `grpc_channel_credentials_duplicate_without_call_credentials` (lines
138-148). -/
def grpc_channel_credentials_duplicate_without_call_credentials (env : Env)
    (channel_creds : Ptr) (st : State) : Option (Ptr × State) :=
  if channel_creds = NULL then grpc_channel_credentials_ref channel_creds st
  else
    match st.world.channel_creds channel_creds with
    | none => none
    | some c =>
      match c.vtable with
      | none => grpc_channel_credentials_ref channel_creds st
      | some vt =>
        if vt.duplicate_without_call_credentials ≠ NULL then
          let r := env.duplicate_without_call_credentials vt.duplicate_without_call_credentials
            channel_creds st.world
          some (r.1, { world := r.2,
                       trace := st.trace ++ [Event.duplicate_without_call_credentials
                         vt.duplicate_without_call_credentials channel_creds] })
        else grpc_channel_credentials_ref channel_creds st

/-! ## Argument adapter -/

/-- The `grpc_arg_type` tags. -/
inductive grpc_arg_type where
  | GRPC_ARG_STRING
  | GRPC_ARG_INTEGER
  | GRPC_ARG_POINTER
  deriving DecidableEq, Repr

/-- The copy/destroy/compare triple `grpc_arg_pointer_vtable`: a struct of
three function pointers, embedded as the three functions. -/
structure grpc_arg_pointer_vtable where
  copy : Ptr → State → Option (Ptr × State)
  destroy : Env → Ptr → State → Option State
  cmp : Ptr → Ptr → Int

/-- The member `value.pointer` of an argument. -/
structure grpc_arg_pointer where
  p : Ptr
  vtable : Option grpc_arg_pointer_vtable

/-- The union `value` of an argument.  Its members share storage in C; this
file reads `pointer` only, and only after checking the type tag. -/
structure grpc_arg_value where
  pointer : grpc_arg_pointer

/-- The struct `grpc_arg`. -/
structure grpc_arg where
  type : grpc_arg_type
  key : String
  value : grpc_arg_value

/-- The struct `grpc_channel_args`: the array `args`, whose length is
`num_args`. -/
structure grpc_channel_args where
  args : List grpc_arg

/-- The field `num_args`. -/
def grpc_channel_args.num_args (a : grpc_channel_args) : Nat := a.args.length

/-- The C library's `strcmp` on keys: zero exactly when the two strings are
equal, otherwise the sign of their order. -/
def strcmp (a b : String) : Int :=
  if a = b then 0 else if a < b then -1 else 1

/-- Modelled from the spec: the macro `GPR_ICMP` (support library, not in
this file).  The spec: the wrapper's "compare function orders by object
identity". -/
def GPR_ICMP (a b : Ptr) : Int :=
  if a < b then -1 else if a > b then 1 else 0

/-- Modelled from the spec: `grpc_channel_arg_pointer_create` (channel_args,
not in this file).  The spec: the argument is "a key string + opaque pointer +
a copy/destroy/compare triple", its type "opaque pointer".  Used as the
concrete instance of the `pointer_create` parameter of the two `to_arg`
functions. -/
def grpc_channel_arg_pointer_create (name : String) (value : Ptr)
    (vtable : grpc_arg_pointer_vtable) : grpc_arg :=
  { type := grpc_arg_type.GRPC_ARG_POINTER, key := name,
    value := { pointer := { p := value, vtable := some vtable } } }

/-- `credentials_pointer_arg_destroy` (lines 150-152). -/
def credentials_pointer_arg_destroy (env : Env) (p : Ptr) (st : State) : Option State :=
  grpc_channel_credentials_unref env p st

/-- `credentials_pointer_arg_copy` (lines 154-156). -/
def credentials_pointer_arg_copy (p : Ptr) (st : State) : Option (Ptr × State) :=
  grpc_channel_credentials_ref p st

/-- `credentials_pointer_cmp` (line 158). -/
def credentials_pointer_cmp (a b : Ptr) : Int := GPR_ICMP a b

/-- `credentials_pointer_vtable` (lines 160-162). -/
def credentials_pointer_vtable : grpc_arg_pointer_vtable :=
  { copy := credentials_pointer_arg_copy, destroy := credentials_pointer_arg_destroy,
    cmp := credentials_pointer_cmp }

/-- `grpc_channel_credentials_to_arg` (lines 164-168).  The key constant
`GRPC_ARG_CHANNEL_CREDENTIALS` is defined in a header outside this file, and
the helper `grpc_channel_arg_pointer_create` it calls in another file: both
are parameters (`pointer_create` for the helper). -/
def grpc_channel_credentials_to_arg
    (pointer_create : String → Ptr → grpc_arg_pointer_vtable → grpc_arg)
    (GRPC_ARG_CHANNEL_CREDENTIALS : String) (credentials : Ptr) : grpc_arg :=
  pointer_create GRPC_ARG_CHANNEL_CREDENTIALS credentials credentials_pointer_vtable

/-- `grpc_channel_credentials_from_arg` (lines 170-179). -/
def grpc_channel_credentials_from_arg (GRPC_ARG_CHANNEL_CREDENTIALS : String)
    (arg : grpc_arg) (st : State) : Ptr × State :=
  if strcmp arg.key GRPC_ARG_CHANNEL_CREDENTIALS ≠ 0 then (NULL, st)
  else if arg.type ≠ grpc_arg_type.GRPC_ARG_POINTER then
    (NULL, { st with trace := st.trace ++ [Event.log "Invalid type %d for arg %s"] })
  else (arg.value.pointer.p, st)

/-- The loop of `grpc_channel_credentials_find_in_args` (lines 185-189), over
the entries from index `i` on. -/
def grpc_channel_credentials_find_in_args_loop (GRPC_ARG_CHANNEL_CREDENTIALS : String) :
    List grpc_arg → State → Ptr × State
  | [], st => (NULL, st)
  | arg :: rest, st =>
    let r := grpc_channel_credentials_from_arg GRPC_ARG_CHANNEL_CREDENTIALS arg st
    if r.1 ≠ NULL then r
    else grpc_channel_credentials_find_in_args_loop GRPC_ARG_CHANNEL_CREDENTIALS rest r.2

/-- `grpc_channel_credentials_find_in_args` (lines 181-191); `none` is the
null argument list. -/
def grpc_channel_credentials_find_in_args (GRPC_ARG_CHANNEL_CREDENTIALS : String)
    (args : Option grpc_channel_args) (st : State) : Ptr × State :=
  match args with
  | none => (NULL, st)
  | some a =>
    grpc_channel_credentials_find_in_args_loop GRPC_ARG_CHANNEL_CREDENTIALS a.args st

/-- `server_credentials_pointer_arg_destroy` (lines 245-248). -/
def server_credentials_pointer_arg_destroy (env : Env) (p : Ptr) (st : State) :
    Option State :=
  grpc_server_credentials_unref env p st

/-- `server_credentials_pointer_arg_copy` (lines 250-252). -/
def server_credentials_pointer_arg_copy (p : Ptr) (st : State) : Option (Ptr × State) :=
  grpc_server_credentials_ref p st

/-- `server_credentials_pointer_cmp` (lines 254-256). -/
def server_credentials_pointer_cmp (a b : Ptr) : Int := GPR_ICMP a b

/-- `cred_ptr_vtable` (lines 258-260). -/
def cred_ptr_vtable : grpc_arg_pointer_vtable :=
  { copy := server_credentials_pointer_arg_copy,
    destroy := server_credentials_pointer_arg_destroy,
    cmp := server_credentials_pointer_cmp }

/-- `grpc_server_credentials_to_arg` (lines 262-265).  The key constant
`GRPC_SERVER_CREDENTIALS_ARG` is defined in a header outside this file, and
the helper `grpc_channel_arg_pointer_create` it calls in another file: both
are parameters (`pointer_create` for the helper). -/
def grpc_server_credentials_to_arg
    (pointer_create : String → Ptr → grpc_arg_pointer_vtable → grpc_arg)
    (GRPC_SERVER_CREDENTIALS_ARG : String) (p : Ptr) : grpc_arg :=
  pointer_create GRPC_SERVER_CREDENTIALS_ARG p cred_ptr_vtable

/-- `grpc_server_credentials_from_arg` (lines 267-275). -/
def grpc_server_credentials_from_arg (GRPC_SERVER_CREDENTIALS_ARG : String)
    (arg : grpc_arg) (st : State) : Ptr × State :=
  if strcmp arg.key GRPC_SERVER_CREDENTIALS_ARG ≠ 0 then (NULL, st)
  else if arg.type ≠ grpc_arg_type.GRPC_ARG_POINTER then
    (NULL, { st with trace := st.trace ++ [Event.log "Invalid type %d for arg %s"] })
  else (arg.value.pointer.p, st)

/-- The loop of `grpc_find_server_credentials_in_args` (lines 281-285), over
the entries from index `i` on. -/
def grpc_find_server_credentials_in_args_loop (GRPC_SERVER_CREDENTIALS_ARG : String) :
    List grpc_arg → State → Ptr × State
  | [], st => (NULL, st)
  | arg :: rest, st =>
    let r := grpc_server_credentials_from_arg GRPC_SERVER_CREDENTIALS_ARG arg st
    if r.1 ≠ NULL then r
    else grpc_find_server_credentials_in_args_loop GRPC_SERVER_CREDENTIALS_ARG rest r.2

/-- `grpc_find_server_credentials_in_args` (lines 277-287); `none` is the null
argument list. -/
def grpc_find_server_credentials_in_args (GRPC_SERVER_CREDENTIALS_ARG : String)
    (args : Option grpc_channel_args) (st : State) : Ptr × State :=
  match args with
  | none => (NULL, st)
  | some a =>
    grpc_find_server_credentials_in_args_loop GRPC_SERVER_CREDENTIALS_ARG a.args st

/-! ## Sequences of lifetime operations -/

/-- One lifetime operation on a credential. -/
inductive LifetimeOp where
  | acquire
  | release
  deriving DecidableEq, Repr

/-- Net change of the reference count over a sequence of operations. -/
def balance : List LifetimeOp → Int
  | [] => 0
  | LifetimeOp.acquire :: rest => 1 + balance rest
  | LifetimeOp.release :: rest => -1 + balance rest

/-- Run a sequence of acquires and releases of one kind on the credential at
`p`, in order; `none` as soon as one of the calls crashes. -/
def run_ops (acquire : Ptr → State → Option (Ptr × State))
    (release : Ptr → State → Option State) (p : Ptr) :
    List LifetimeOp → State → Option State
  | [], st => some st
  | LifetimeOp.acquire :: rest, st =>
    match acquire p st with
    | none => none
    | some r => run_ops acquire release p rest r.2
  | LifetimeOp.release :: rest, st =>
    match release p st with
    | none => none
    | some st1 => run_ops acquire release p rest st1

/-- The events that are invocations of a table's `destruct` entry. -/
def is_destruct : Event → Bool
  | Event.channel_destruct _ _ => true
  | Event.call_destruct _ _ => true
  | Event.server_destruct _ _ => true
  | _ => false

/-- What "refcount correctness" says of a run of `ops` from `st` on the
credential at `p`, `d` being the invocation of its `destruct` entry: every
proper prefix of the run adds nothing to the trace, the last operation is a
release, and the whole run adds `d` followed by events none of which is a
`destruct` invocation. -/
def destruct_once_at_last_release (acquire : Ptr → State → Option (Ptr × State))
    (release : Ptr → State → Option State) (p : Ptr) (st : State) (d : Event)
    (ops : List LifetimeOp) : Prop :=
  (∀ k, k < ops.length →
    ∃ stk, run_ops acquire release p (ops.take k) st = some stk ∧ stk.trace = st.trace) ∧
  ops.getLast? = some LifetimeOp.release ∧
  ∃ st2 rest, run_ops acquire release p ops st = some st2 ∧
    st2.trace = st.trace ++ d :: rest ∧ ∀ e ∈ rest, is_destruct e = false

/-! ## Concrete inputs -/

/-- An environment in which every table entry leaves memory as it is. -/
def env0 : Env :=
  { channel_destruct := fun _ _ w => w,
    call_destruct := fun _ _ w => w,
    server_destruct := fun _ _ w => w,
    processor_destroy := fun _ _ w => w,
    get_request_metadata := fun _ _ _ _ _ _ _ w => (true, w),
    cancel_get_request_metadata := fun _ _ _ _ w => w,
    channel_create_security_connector := fun _ _ _ _ _ _ _ w =>
      (grpc_security_status.GRPC_SECURITY_OK, w),
    server_create_security_connector := fun _ _ _ w =>
      (grpc_security_status.GRPC_SECURITY_OK, w),
    duplicate_without_call_credentials := fun _ p w => (p, w) }

/-- A channel credential with every table entry present and refcount 1. -/
def channel0 : grpc_channel_credentials :=
  { vtable := some { destruct := 11, create_security_connector := 12,
                     duplicate_without_call_credentials := 13 },
    refcount := 1 }

/-- A call credential with every table entry present and refcount 1. -/
def call0 : grpc_call_credentials :=
  { vtable := some { destruct := 21, get_request_metadata := 22,
                     cancel_get_request_metadata := 23 },
    refcount := 1 }

/-- A server credential with every table entry present, refcount 1 and an
empty processor slot. -/
def server0 : grpc_server_credentials :=
  { vtable := some { destruct := 31, create_security_connector := 32 },
    refcount := 1,
    processor := { process := NULL, destroy := NULL, state := NULL } }

/-- A channel credential whose table has no entry at all. -/
def channel_bare : grpc_channel_credentials :=
  { vtable := some { destruct := NULL, create_security_connector := NULL,
                     duplicate_without_call_credentials := NULL },
    refcount := 1 }

/-- A call credential whose table has no entry at all. -/
def call_bare : grpc_call_credentials :=
  { vtable := some { destruct := NULL, get_request_metadata := NULL,
                     cancel_get_request_metadata := NULL },
    refcount := 1 }

/-- A server credential whose table has no entry at all. -/
def server_bare : grpc_server_credentials :=
  { vtable := some { destruct := NULL, create_security_connector := NULL },
    refcount := 1,
    processor := { process := NULL, destroy := NULL, state := NULL } }

/-- A server credential with a processor installed: destroy function 41,
state 51. -/
def server_busy : grpc_server_credentials :=
  { vtable := some { destruct := 31, create_security_connector := 32 },
    refcount := 1,
    processor := { process := 40, destroy := 41, state := 51 } }

/-- A memory holding, for each kind, a credential with a full table at
address 1 and one with an empty table at address 2; a server credential with
an installed processor at address 3; and the value 7 in the pointer cell at
address 100 (every other cell holds `NULL`). -/
def world0 : World :=
  { channel_creds := fun p =>
      if p = 1 then some channel0 else if p = 2 then some channel_bare else none,
    call_creds := fun p =>
      if p = 1 then some call0 else if p = 2 then some call_bare else none,
    server_creds := fun p =>
      if p = 1 then some server0 else if p = 2 then some server_bare
      else if p = 3 then some server_busy else none,
    requests := fun _ => none,
    cells := fun p => if p = 100 then 7 else NULL,
    mdarrays := fun _ => [] }

/-- The memory `world0` with an empty trace. -/
def state0 : State := { world := world0, trace := [] }

/-- An environment whose channel `create_security_connector` entry looks at
the call credential it is handed: `GRPC_SECURITY_ERROR` when that is `NULL`,
`GRPC_SECURITY_OK` otherwise. -/
def env_call_sensitive : Env :=
  { env0 with
    channel_create_security_connector := fun _ _ call_creds _ _ _ _ w =>
      (if call_creds = NULL then grpc_security_status.GRPC_SECURITY_ERROR
       else grpc_security_status.GRPC_SECURITY_OK, w) }

/-- An argument with the given type tag and key, holding the pointer `p` (and
no copy/destroy/compare triple). -/
def mk_arg (type : grpc_arg_type) (key : String) (p : Ptr) : grpc_arg :=
  { type := type, key := key, value := { pointer := { p := p, vtable := none } } }

/-- An argument list of two entries under the channel key
`"grpc.channel_credentials"`: the first of integer type, the second of pointer
type holding the pointer 5. -/
def channel_args2 : grpc_channel_args :=
  { args := [mk_arg grpc_arg_type.GRPC_ARG_INTEGER "grpc.channel_credentials" NULL,
             mk_arg grpc_arg_type.GRPC_ARG_POINTER "grpc.channel_credentials" 5] }

/-- An argument list of two entries under the server key
`"grpc.server_credentials"`: the first of pointer type holding a null pointer,
the second of pointer type holding the pointer 5. -/
def server_args2 : grpc_channel_args :=
  { args := [mk_arg grpc_arg_type.GRPC_ARG_POINTER "grpc.server_credentials" NULL,
             mk_arg grpc_arg_type.GRPC_ARG_POINTER "grpc.server_credentials" 5] }

/-- The reading of `find_in_arguments` in the claim, following its words: the
list absent gives absent; otherwise the first entry (lowest index) whose key
is the fixed key decides, and the result is what `from_arg` yields on that
entry; no entry with the key gives absent. -/
def find_by_first_key (from_arg : String → grpc_arg → State → Ptr × State) (KEY : String)
    (args : Option grpc_channel_args) (st : State) : Ptr :=
  match args with
  | none => NULL
  | some a =>
    match a.args.find? (fun x => decide (x.key = KEY)) with
    | none => NULL
    | some x => (from_arg KEY x st).1

/-- An entry that `from_arg` turns into a non-null credential: its key is the
fixed key, its type is the pointer type and its pointer is not null. -/
def usable_entry (KEY : String) (x : grpc_arg) : Bool :=
  decide (x.key = KEY) && decide (x.type = grpc_arg_type.GRPC_ARG_POINTER) &&
    decide (x.value.pointer.p ≠ NULL)

/-- What the amended claim says `find_in_arguments` returns: the pointer of
the first usable entry, `NULL` when the list is absent or has none. -/
def find_first_usable (KEY : String) (args : Option grpc_channel_args) : Ptr :=
  match args with
  | none => NULL
  | some a =>
    match a.args.find? (usable_entry KEY) with
    | none => NULL
    | some x => x.value.pointer.p

/-! ## Metadata requests -/

/-- Overwrite the metadata request stored at `p` (`none` frees the address). -/
def World.set_request (w : World) (p : Ptr)
    (r : Option grpc_credentials_metadata_request) : World :=
  { w with requests := Function.update w.requests p r }

/-- The all-zero response buffer. -/
def zero_response : grpc_http_response :=
  { status := 0, hdr_count := 0, hdrs := NULL, body_length := 0, body := NULL }

/-- Modelled from the spec: `gpr_zalloc` of the support library (`alloc`), not
in this file.  The spec: a metadata request starts with "an initially-empty
response buffer"; the block is zeroed.  The address `r` the allocator hands
out is a parameter; the allocator aborts rather than return `NULL`. -/
def gpr_zalloc (r : Ptr) (st : State) : Option State :=
  if r = NULL then none
  else some { st with world :=
                st.world.set_request r (some { creds := NULL, response := zero_response }) }

/-- Modelled from the spec: `grpc_http_response_destroy` of the HTTP parser,
not in this file.  The spec: destruction "frees the response buffer".  The
body and the header array are freed when they are not null. -/
def grpc_http_response_destroy (response : grpc_http_response) (st : State) : State :=
  { st with trace := st.trace ++
      ((if response.body ≠ NULL then [Event.free response.body] else []) ++
       (if response.hdrs ≠ NULL then [Event.free response.hdrs] else [])) }

/-- `grpc_credentials_metadata_request_create` (lines 40-46); `r` is the
address handed out by `gpr_zalloc`. -/
def grpc_credentials_metadata_request_create (r : Ptr) (creds : Ptr) (st : State) :
    Option (Ptr × State) :=
  match gpr_zalloc r st with
  | none => none
  | some st1 =>
    match grpc_call_credentials_ref creds st1 with
    | none => none
    | some res =>
      match res.2.world.requests r with
      | none => none
      | some req =>
        let req1 : grpc_credentials_metadata_request := { req with creds := res.1 }
        some (r, { res.2 with world := res.2.world.set_request r (some req1) })

/-- `grpc_credentials_metadata_request_destroy` (lines 48-53).  The response
is read from memory after the release of the credential has returned. -/
def grpc_credentials_metadata_request_destroy (env : Env) (r : Ptr) (st : State) :
    Option State :=
  if r = NULL then none
  else
    match st.world.requests r with
    | none => none
    | some req =>
      match grpc_call_credentials_unref env req.creds st with
      | none => none
      | some st1 =>
        match st1.world.requests r with
        | none => none
        | some req1 =>
          let st2 : State := grpc_http_response_destroy req1.response st1
          some { world := st2.world.set_request r none,
                 trace := st2.trace ++ [Event.free r] }

/-! ## Sequences of processor installations -/

/-- A processor whose destructor the core will call: destroy function and
state both non-null (the guard of lines 207 and 239). -/
def processor_installed (q : grpc_auth_metadata_processor) : Bool :=
  decide (q.destroy ≠ NULL ∧ q.state ≠ NULL)

/-- The invocation of a processor's destructor on its state. -/
def destroy_event (q : grpc_auth_metadata_processor) : Event :=
  Event.processor_destroy q.destroy q.state

/-- The events that are invocations of a processor destructor. -/
def is_processor_destroy : Event → Bool
  | Event.processor_destroy _ _ => true
  | _ => false

/-- Call `grpc_server_credentials_set_auth_metadata_processor` on the
credential at `creds` with each processor of the list, in order; `none` as soon
as one of the calls crashes. -/
def set_processors (env : Env) (creds : Ptr) :
    List grpc_auth_metadata_processor → State → Option State
  | [], st => some st
  | q :: rest, st =>
    match grpc_server_credentials_set_auth_metadata_processor env creds q st with
    | none => none
    | some st1 => set_processors env creds rest st1

/-- The processor in the slot after installing the processors of the list, in
order, over the processor `d`: the last of the list, `d` when it is empty. -/
def last_installed (d : grpc_auth_metadata_processor) :
    List grpc_auth_metadata_processor → grpc_auth_metadata_processor
  | [] => d
  | q :: rest => last_installed q rest

/-- The processors that are replaced while installing the processors of the
list, in order, over the processor `d`: `d` and then every processor of the
list but the last. -/
def replaced (d : grpc_auth_metadata_processor) :
    List grpc_auth_metadata_processor → List grpc_auth_metadata_processor
  | [] => []
  | q :: rest => d :: replaced q rest

/-- The state argument of a processor-destructor invocation (`NULL` for any
other event). -/
def destroyed_state : Event → Ptr
  | Event.processor_destroy _ s => s
  | _ => NULL

/-- The copy function of the wrapper of a pointer argument, applied to the
pointer the argument holds, as the argument container calls it when it copies
the argument; a crash when the argument carries no triple. -/
def grpc_arg.wrapper_copy (a : grpc_arg) (st : State) : Option (Ptr × State) :=
  match a.value.pointer.vtable with
  | none => none
  | some vt => vt.copy a.value.pointer.p st

/-- The destroy function of the wrapper of a pointer argument, applied to the
pointer the argument holds, as the argument container calls it when it
destroys the argument; a crash when the argument carries no triple. -/
def grpc_arg.wrapper_destroy (a : grpc_arg) (env : Env) (st : State) : Option State :=
  match a.value.pointer.vtable with
  | none => none
  | some vt => vt.destroy env a.value.pointer.p st

/-! ## Theorems -/

/-! ### Lifetime: acquire and release on a live credential -/

theorem balance_append (xs ys : List LifetimeOp) :
    balance (xs ++ ys) = balance xs + balance ys := by
  induction xs with
  | nil => simp [balance]
  | cons x xs ih =>
    cases x <;> simp [balance, ih] <;> ring

theorem balance_eq_count (xs : List LifetimeOp) :
    balance xs = (xs.count LifetimeOp.acquire : Int) - (xs.count LifetimeOp.release : Int) := by
  induction xs with
  | nil => simp [balance]
  | cons x xs ih =>
    cases x <;> simp [balance, ih, List.count_cons] <;> ring

theorem run_ops_append (acquire : Ptr → State → Option (Ptr × State))
    (release : Ptr → State → Option State) (p : Ptr) (xs ys : List LifetimeOp) (st : State) :
    run_ops acquire release p (xs ++ ys) st =
      (run_ops acquire release p xs st).bind (run_ops acquire release p ys) := by
  induction xs generalizing st with
  | nil => simp [run_ops]
  | cons x xs ih =>
    cases x
    · simp only [List.cons_append, run_ops]
      cases acquire p st <;> simp [ih]
    · simp only [List.cons_append, run_ops]
      cases release p st <;> simp [ih]

/-- While the count stays positive, a run only moves the count: stated for an
invariant `Inv st k` ("the credential at `p` is live with count `k`, its table
and the trace are the initial ones") that acquire and release are assumed to
step correctly. -/
theorem run_ops_positive (Inv : State → Int → Prop)
    (acquire : Ptr → State → Option (Ptr × State))
    (release : Ptr → State → Option State) (p : Ptr)
    (hA : ∀ st k, Inv st k → ∃ st1, acquire p st = some (p, st1) ∧ Inv st1 (k + 1))
    (hR : ∀ st k, Inv st k → k ≠ 1 → ∃ st1, release p st = some st1 ∧ Inv st1 (k - 1)) :
    ∀ (ops : List LifetimeOp) (st : State) (k : Int), Inv st k →
      (∀ j, j ≤ ops.length → 0 < k + balance (ops.take j)) →
      ∃ st1, run_ops acquire release p ops st = some st1 ∧ Inv st1 (k + balance ops) := by
  intro ops
  induction ops with
  | nil =>
    intro st k hinv _
    exact ⟨st, rfl, by simpa [balance] using hinv⟩
  | cons op rest ih =>
    intro st k hinv hpos
    cases op with
    | acquire =>
      obtain ⟨st1, h1, hinv1⟩ := hA st k hinv
      have hrest : ∀ j, j ≤ rest.length → 0 < (k + 1) + balance (rest.take j) := by
        intro j hj
        have := hpos (j + 1) (by simpa using hj)
        simp only [List.take_succ_cons, balance] at this
        linarith
      obtain ⟨st2, h2, hinv2⟩ := ih st1 (k + 1) hinv1 hrest
      refine ⟨st2, ?_, ?_⟩
      · simp [run_ops, h1, h2]
      · have e : k + balance (LifetimeOp.acquire :: rest) = k + 1 + balance rest := by
          simp only [balance]; ring
        rw [e]; exact hinv2
    | release =>
      have hk : k ≠ 1 := by
        have := hpos 1 (by simp)
        simp only [List.take_succ_cons, List.take_zero, balance] at this
        intro hk1; rw [hk1] at this; simp at this
      obtain ⟨st1, h1, hinv1⟩ := hR st k hinv hk
      have hrest : ∀ j, j ≤ rest.length → 0 < (k - 1) + balance (rest.take j) := by
        intro j hj
        have := hpos (j + 1) (by simpa using hj)
        simp only [List.take_succ_cons, balance] at this
        linarith
      obtain ⟨st2, h2, hinv2⟩ := ih st1 (k - 1) hinv1 hrest
      refine ⟨st2, ?_, ?_⟩
      · simp [run_ops, h1, h2]
      · have e : k + balance (LifetimeOp.release :: rest) = k - 1 + balance rest := by
          simp only [balance]; ring
        rw [e]; exact hinv2

/-- The generic form of refcount correctness: if acquire and release step the
invariant, the invariant fixes the trace, and a release at count 1 emits `d`
followed by no further `destruct`, then every balanced run that stays positive
until its last operation emits `d` once, in its last release. -/
theorem run_ops_destruct_once (Inv : State → Int → Prop)
    (acquire : Ptr → State → Option (Ptr × State))
    (release : Ptr → State → Option State) (p : Ptr) (tr0 : List Event) (d : Event)
    (hA : ∀ st k, Inv st k → ∃ st1, acquire p st = some (p, st1) ∧ Inv st1 (k + 1))
    (hR : ∀ st k, Inv st k → k ≠ 1 → ∃ st1, release p st = some st1 ∧ Inv st1 (k - 1))
    (hT : ∀ st k, Inv st k → st.trace = tr0)
    (hLast : ∀ st, Inv st 1 → ∃ st2 rest, release p st = some st2 ∧
      st2.trace = tr0 ++ d :: rest ∧ ∀ e ∈ rest, is_destruct e = false)
    (N : Nat) (hN : 1 ≤ N) (ops : List LifetimeOp)
    (hacq : ops.count LifetimeOp.acquire = N - 1)
    (hrel : ops.count LifetimeOp.release = N)
    (hpos : ∀ k, k < ops.length → 0 < 1 + balance (ops.take k))
    (st : State) (hst : Inv st 1) :
    destruct_once_at_last_release acquire release p st d ops := by
  have hbal : balance ops = -1 := by
    rw [balance_eq_count, hacq, hrel]; omega
  have htr : st.trace = tr0 := hT st 1 hst
  rcases List.eq_nil_or_concat ops with hnil | ⟨pre, last, hops⟩
  · subst hnil; simp at hrel; omega
  rw [List.concat_eq_append] at hops
  have hlen : pre.length < ops.length := by rw [hops]; simp
  have hpre : 0 < 1 + balance pre := by
    have := hpos pre.length hlen
    rwa [hops, List.take_left] at this
  have hsplit : balance pre + balance [last] = -1 := by
    rw [← balance_append, ← hops]; exact hbal
  have hlast : last = LifetimeOp.release := by
    cases last with
    | acquire => simp [balance] at hsplit; omega
    | release => rfl
  subst hlast
  have hpre0 : balance pre = 0 := by simp [balance] at hsplit; omega
  refine ⟨?_, ?_, ?_⟩
  · intro k hk
    have hposk : ∀ j, j ≤ (ops.take k).length → 0 < 1 + balance ((ops.take k).take j) := by
      intro j _
      rw [List.take_take]
      exact hpos (min j k) (lt_of_le_of_lt (min_le_right j k) hk)
    obtain ⟨stk, hrun, hinv⟩ :=
      run_ops_positive Inv acquire release p hA hR (ops.take k) st 1 hst hposk
    exact ⟨stk, hrun, by rw [hT stk _ hinv, htr]⟩
  · rw [hops]; simp
  · have hposp : ∀ j, j ≤ pre.length → 0 < 1 + balance (pre.take j) := by
      intro j hj
      have := hpos j (lt_of_le_of_lt hj hlen)
      rwa [hops, List.take_append_of_le_length hj] at this
    obtain ⟨st1, hrun, hinv⟩ :=
      run_ops_positive Inv acquire release p hA hR pre st 1 hst hposp
    rw [hpre0] at hinv
    obtain ⟨st2, rest, hrel2, htr2, hrest⟩ := hLast st1 (by simpa using hinv)
    refine ⟨st2, rest, ?_, by rw [htr2, htr], hrest⟩
    rw [hops, run_ops_append, hrun]
    simp [run_ops, hrel2]

/-- Acquire on a live channel credential: same address back, count plus one,
nothing else. -/
theorem channel_ref_live (p : Ptr) (st : State) (c : grpc_channel_credentials)
    (hp : p ≠ NULL) (h : st.world.channel_creds p = some c) :
    grpc_channel_credentials_ref p st =
      some (p, { st with world :=
                  st.world.set_channel p (some { c with refcount := c.refcount + 1 }) }) := by
  simp [grpc_channel_credentials_ref, hp, h, gpr_ref]

/-- Release on a live channel credential whose count is not 1: count minus
one, nothing else. -/
theorem channel_unref_live (env : Env) (p : Ptr) (st : State) (c : grpc_channel_credentials)
    (hp : p ≠ NULL) (h : st.world.channel_creds p = some c) (hk : c.refcount ≠ 1) :
    grpc_channel_credentials_unref env p st =
      some { st with world :=
              st.world.set_channel p (some { c with refcount := c.refcount - 1 }) } := by
  have hz : ¬ (c.refcount - 1 = 0) := by omega
  simp [grpc_channel_credentials_unref, hp, h, gpr_unref, hz]

/-- Acquire on a live call credential: same address back, count plus one,
nothing else. -/
theorem call_ref_live (p : Ptr) (st : State) (c : grpc_call_credentials)
    (hp : p ≠ NULL) (h : st.world.call_creds p = some c) :
    grpc_call_credentials_ref p st =
      some (p, { st with world :=
                  st.world.set_call p (some { c with refcount := c.refcount + 1 }) }) := by
  simp [grpc_call_credentials_ref, hp, h, gpr_ref]

/-- Release on a live call credential whose count is not 1: count minus
one, nothing else. -/
theorem call_unref_live (env : Env) (p : Ptr) (st : State) (c : grpc_call_credentials)
    (hp : p ≠ NULL) (h : st.world.call_creds p = some c) (hk : c.refcount ≠ 1) :
    grpc_call_credentials_unref env p st =
      some { st with world :=
              st.world.set_call p (some { c with refcount := c.refcount - 1 }) } := by
  have hz : ¬ (c.refcount - 1 = 0) := by omega
  simp [grpc_call_credentials_unref, hp, h, gpr_unref, hz]

/-- Acquire on a live server credential: same address back, count plus one,
nothing else. -/
theorem server_ref_live (p : Ptr) (st : State) (c : grpc_server_credentials)
    (hp : p ≠ NULL) (h : st.world.server_creds p = some c) :
    grpc_server_credentials_ref p st =
      some (p, { st with world :=
                  st.world.set_server p (some { c with refcount := c.refcount + 1 }) }) := by
  simp [grpc_server_credentials_ref, hp, h, gpr_ref]

/-- Release on a live server credential whose count is not 1: count minus
one, nothing else. -/
theorem server_unref_live (env : Env) (p : Ptr) (st : State) (c : grpc_server_credentials)
    (hp : p ≠ NULL) (h : st.world.server_creds p = some c) (hk : c.refcount ≠ 1) :
    grpc_server_credentials_unref env p st =
      some { st with world :=
              st.world.set_server p (some { c with refcount := c.refcount - 1 }) } := by
  have hz : ¬ (c.refcount - 1 = 0) := by omega
  simp [grpc_server_credentials_unref, hp, h, gpr_unref, hz]

/-- Release of the last reference to a channel credential. -/
theorem channel_unref_last (env : Env) (p : Ptr) (st : State) (c : grpc_channel_credentials)
    (vt : grpc_channel_credentials_vtable)
    (hp : p ≠ NULL) (h : st.world.channel_creds p = some c) (hk : c.refcount = 1)
    (hvt : c.vtable = some vt) (hd : vt.destruct ≠ NULL) :
    grpc_channel_credentials_unref env p st =
      some { world := (env.channel_destruct vt.destruct p
                        (st.world.set_channel p (some { c with refcount := 0 }))).set_channel p none,
             trace := st.trace ++ [Event.channel_destruct vt.destruct p, Event.free p] } := by
  simp [grpc_channel_credentials_unref, hp, h, gpr_unref, hk, hvt, hd]

/-- Release of the last reference to a call credential. -/
theorem call_unref_last (env : Env) (p : Ptr) (st : State) (c : grpc_call_credentials)
    (vt : grpc_call_credentials_vtable)
    (hp : p ≠ NULL) (h : st.world.call_creds p = some c) (hk : c.refcount = 1)
    (hvt : c.vtable = some vt) (hd : vt.destruct ≠ NULL) :
    grpc_call_credentials_unref env p st =
      some { world := (env.call_destruct vt.destruct p
                        (st.world.set_call p (some { c with refcount := 0 }))).set_call p none,
             trace := st.trace ++ [Event.call_destruct vt.destruct p, Event.free p] } := by
  simp [grpc_call_credentials_unref, hp, h, gpr_unref, hk, hvt, hd]

/-- The guarded processor call adds at most a `processor_destroy` event. -/
theorem destroy_processor_trace (env : Env) (q : grpc_auth_metadata_processor) (st : State) :
    (destroy_processor env q st).trace =
      st.trace ++ (if q.destroy ≠ NULL ∧ q.state ≠ NULL
                   then [Event.processor_destroy q.destroy q.state] else []) := by
  unfold destroy_processor
  split <;> simp

/-- Release of the last reference to a server credential whose `destruct`
leaves the envelope readable: `c2` is the envelope as read after `destruct`. -/
theorem server_unref_last (env : Env) (p : Ptr) (st : State) (c c2 : grpc_server_credentials)
    (vt : grpc_server_credentials_vtable)
    (hp : p ≠ NULL) (h : st.world.server_creds p = some c) (hk : c.refcount = 1)
    (hvt : c.vtable = some vt) (hd : vt.destruct ≠ NULL)
    (h2 : (env.server_destruct vt.destruct p
            (st.world.set_server p (some { c with refcount := 0 }))).server_creds p = some c2) :
    ∃ st2, grpc_server_credentials_unref env p st = some st2 ∧
      st2.trace = st.trace ++ Event.server_destruct vt.destruct p ::
        ((if c2.processor.destroy ≠ NULL ∧ c2.processor.state ≠ NULL
          then [Event.processor_destroy c2.processor.destroy c2.processor.state] else [])
         ++ [Event.free p]) := by
  simp only [hvt] at h2
  simp [grpc_server_credentials_unref, hp, h, gpr_unref, hk, hvt, hd, h2,
    destroy_processor_trace]

/-- Refcount correctness for channel credentials. -/
theorem channel_destruct_once (env : Env) (N : Nat) (hN : 1 ≤ N) (ops : List LifetimeOp)
    (hacq : ops.count LifetimeOp.acquire = N - 1)
    (hrel : ops.count LifetimeOp.release = N)
    (hpos : ∀ k, k < ops.length → 0 < 1 + balance (ops.take k))
    (p : Ptr) (hp : p ≠ NULL) (st : State) (c : grpc_channel_credentials)
    (vt : grpc_channel_credentials_vtable)
    (h : st.world.channel_creds p = some c) (hk : c.refcount = 1)
    (hvt : c.vtable = some vt) (hd : vt.destruct ≠ NULL) :
    destruct_once_at_last_release grpc_channel_credentials_ref
      (grpc_channel_credentials_unref env) p st (Event.channel_destruct vt.destruct p) ops := by
  refine run_ops_destruct_once
    (fun s k => ∃ c1, s.world.channel_creds p = some c1 ∧ c1.refcount = k ∧
      c1.vtable = some vt ∧ s.trace = st.trace)
    _ _ p st.trace _ ?_ ?_ ?_ ?_ N hN ops hacq hrel hpos st ⟨c, h, hk, hvt, rfl⟩
  · rintro s k ⟨c1, h1, hk1, hv1, ht1⟩
    exact ⟨_, channel_ref_live p s c1 hp h1, { c1 with refcount := c1.refcount + 1 },
      by simp [World.set_channel], by simp [hk1], hv1, ht1⟩
  · rintro s k ⟨c1, h1, hk1, hv1, ht1⟩ hne
    exact ⟨_, channel_unref_live env p s c1 hp h1 (by rw [hk1]; exact hne),
      { c1 with refcount := c1.refcount - 1 },
      by simp [World.set_channel], by simp [hk1], hv1, ht1⟩
  · rintro s k ⟨c1, _, _, _, ht1⟩
    exact ht1
  · rintro s ⟨c1, h1, hk1, hv1, ht1⟩
    exact ⟨_, [Event.free p], channel_unref_last env p s c1 vt hp h1 hk1 hv1 hd,
      by simp [ht1], by simp [is_destruct]⟩

/-- Refcount correctness for call credentials. -/
theorem call_destruct_once (env : Env) (N : Nat) (hN : 1 ≤ N) (ops : List LifetimeOp)
    (hacq : ops.count LifetimeOp.acquire = N - 1)
    (hrel : ops.count LifetimeOp.release = N)
    (hpos : ∀ k, k < ops.length → 0 < 1 + balance (ops.take k))
    (p : Ptr) (hp : p ≠ NULL) (st : State) (c : grpc_call_credentials)
    (vt : grpc_call_credentials_vtable)
    (h : st.world.call_creds p = some c) (hk : c.refcount = 1)
    (hvt : c.vtable = some vt) (hd : vt.destruct ≠ NULL) :
    destruct_once_at_last_release grpc_call_credentials_ref
      (grpc_call_credentials_unref env) p st (Event.call_destruct vt.destruct p) ops := by
  refine run_ops_destruct_once
    (fun s k => ∃ c1, s.world.call_creds p = some c1 ∧ c1.refcount = k ∧
      c1.vtable = some vt ∧ s.trace = st.trace)
    _ _ p st.trace _ ?_ ?_ ?_ ?_ N hN ops hacq hrel hpos st ⟨c, h, hk, hvt, rfl⟩
  · rintro s k ⟨c1, h1, hk1, hv1, ht1⟩
    exact ⟨_, call_ref_live p s c1 hp h1, { c1 with refcount := c1.refcount + 1 },
      by simp [World.set_call], by simp [hk1], hv1, ht1⟩
  · rintro s k ⟨c1, h1, hk1, hv1, ht1⟩ hne
    exact ⟨_, call_unref_live env p s c1 hp h1 (by rw [hk1]; exact hne),
      { c1 with refcount := c1.refcount - 1 },
      by simp [World.set_call], by simp [hk1], hv1, ht1⟩
  · rintro s k ⟨c1, _, _, _, ht1⟩
    exact ht1
  · rintro s ⟨c1, h1, hk1, hv1, ht1⟩
    exact ⟨_, [Event.free p], call_unref_last env p s c1 vt hp h1 hk1 hv1 hd,
      by simp [ht1], by simp [is_destruct]⟩

/-- Refcount correctness for server credentials, for a `destruct` entry that
does not itself free the envelope. -/
theorem server_destruct_once (env : Env) (N : Nat) (hN : 1 ≤ N) (ops : List LifetimeOp)
    (hacq : ops.count LifetimeOp.acquire = N - 1)
    (hrel : ops.count LifetimeOp.release = N)
    (hpos : ∀ k, k < ops.length → 0 < 1 + balance (ops.take k))
    (p : Ptr) (hp : p ≠ NULL) (st : State) (c : grpc_server_credentials)
    (vt : grpc_server_credentials_vtable)
    (h : st.world.server_creds p = some c) (hk : c.refcount = 1)
    (hvt : c.vtable = some vt) (hd : vt.destruct ≠ NULL)
    (hkeep : ∀ w, w.server_creds p ≠ none →
      (env.server_destruct vt.destruct p w).server_creds p ≠ none) :
    destruct_once_at_last_release grpc_server_credentials_ref
      (grpc_server_credentials_unref env) p st (Event.server_destruct vt.destruct p) ops := by
  refine run_ops_destruct_once
    (fun s k => ∃ c1, s.world.server_creds p = some c1 ∧ c1.refcount = k ∧
      c1.vtable = some vt ∧ s.trace = st.trace)
    _ _ p st.trace _ ?_ ?_ ?_ ?_ N hN ops hacq hrel hpos st ⟨c, h, hk, hvt, rfl⟩
  · rintro s k ⟨c1, h1, hk1, hv1, ht1⟩
    exact ⟨_, server_ref_live p s c1 hp h1, { c1 with refcount := c1.refcount + 1 },
      by simp [World.set_server], by simp [hk1], hv1, ht1⟩
  · rintro s k ⟨c1, h1, hk1, hv1, ht1⟩ hne
    exact ⟨_, server_unref_live env p s c1 hp h1 (by rw [hk1]; exact hne),
      { c1 with refcount := c1.refcount - 1 },
      by simp [World.set_server], by simp [hk1], hv1, ht1⟩
  · rintro s k ⟨c1, _, _, _, ht1⟩
    exact ht1
  · rintro s ⟨c1, h1, hk1, hv1, ht1⟩
    have hlive := hkeep (s.world.set_server p (some { c1 with refcount := 0 }))
      (by simp [World.set_server])
    obtain ⟨c2, h2⟩ := Option.ne_none_iff_exists'.mp hlive
    obtain ⟨st2, hrun, htr⟩ := server_unref_last env p s c1 c2 vt hp h1 hk1 hv1 hd h2
    refine ⟨st2, _, hrun, by rw [htr, ht1], ?_⟩
    intro e he
    simp only [List.mem_append, List.mem_singleton] at he
    rcases he with he | he
    · split at he
      · simp only [List.mem_singleton] at he
        subst he; rfl
      · simp at he
    · subst he; rfl

/-- C1, refcount correctness, for the three kinds.  Take N ≥ 1 and a sequence
of N-1 acquires and N releases whose running count, started at 1, is positive
after every proper prefix.  For a live credential at `p` with refcount 1 and a
`destruct` entry, running the sequence succeeds; no proper prefix of it adds
any event to the trace; its last operation is a release (the Nth), and the
whole run adds exactly one `destruct` invocation, on `p`, followed by no other
`destruct`.  (For a server credential the `destruct` entry is assumed not to
free the envelope itself, which the core reads afterwards.)  Moreover acquire
on any live credential returns the address it was given and raises the
refcount by exactly 1, changing nothing else. -/
theorem refcount_correctness (env : Env) (N : Nat) (hN : 1 ≤ N) (ops : List LifetimeOp)
    (hacq : ops.count LifetimeOp.acquire = N - 1)
    (hrel : ops.count LifetimeOp.release = N)
    (hpos : ∀ k, k < ops.length → 0 < 1 + balance (ops.take k))
    (p : Ptr) (hp : p ≠ NULL) (st : State) :
    (∀ c vt, st.world.channel_creds p = some c → c.refcount = 1 → c.vtable = some vt →
      vt.destruct ≠ NULL →
      destruct_once_at_last_release grpc_channel_credentials_ref
        (grpc_channel_credentials_unref env) p st (Event.channel_destruct vt.destruct p) ops) ∧
    (∀ c vt, st.world.call_creds p = some c → c.refcount = 1 → c.vtable = some vt →
      vt.destruct ≠ NULL →
      destruct_once_at_last_release grpc_call_credentials_ref
        (grpc_call_credentials_unref env) p st (Event.call_destruct vt.destruct p) ops) ∧
    (∀ c vt, st.world.server_creds p = some c → c.refcount = 1 → c.vtable = some vt →
      vt.destruct ≠ NULL →
      (∀ w, w.server_creds p ≠ none →
        (env.server_destruct vt.destruct p w).server_creds p ≠ none) →
      destruct_once_at_last_release grpc_server_credentials_ref
        (grpc_server_credentials_unref env) p st (Event.server_destruct vt.destruct p) ops) ∧
    (∀ s c, s.world.channel_creds p = some c →
      grpc_channel_credentials_ref p s =
        some (p, { s with world :=
                    s.world.set_channel p (some { c with refcount := c.refcount + 1 }) })) ∧
    (∀ s c, s.world.call_creds p = some c →
      grpc_call_credentials_ref p s =
        some (p, { s with world :=
                    s.world.set_call p (some { c with refcount := c.refcount + 1 }) })) ∧
    (∀ s c, s.world.server_creds p = some c →
      grpc_server_credentials_ref p s =
        some (p, { s with world :=
                    s.world.set_server p (some { c with refcount := c.refcount + 1 }) })) :=
  ⟨fun c vt h hk hvt hd =>
      channel_destruct_once env N hN ops hacq hrel hpos p hp st c vt h hk hvt hd,
   fun c vt h hk hvt hd =>
      call_destruct_once env N hN ops hacq hrel hpos p hp st c vt h hk hvt hd,
   fun c vt h hk hvt hd hkeep =>
      server_destruct_once env N hN ops hacq hrel hpos p hp st c vt h hk hvt hd hkeep,
   fun s c h => channel_ref_live p s c hp h,
   fun s c h => call_ref_live p s c hp h,
   fun s c h => server_ref_live p s c hp h⟩

/-- C1 at a concrete input: N = 2, the sequence acquire, release, release
on the credentials of `state0` at address 1. -/
theorem refcount_correctness_witness :
    destruct_once_at_last_release grpc_channel_credentials_ref
      (grpc_channel_credentials_unref env0) 1 state0 (Event.channel_destruct 11 1)
      [LifetimeOp.acquire, LifetimeOp.release, LifetimeOp.release] ∧
    destruct_once_at_last_release grpc_call_credentials_ref
      (grpc_call_credentials_unref env0) 1 state0 (Event.call_destruct 21 1)
      [LifetimeOp.acquire, LifetimeOp.release, LifetimeOp.release] ∧
    destruct_once_at_last_release grpc_server_credentials_ref
      (grpc_server_credentials_unref env0) 1 state0 (Event.server_destruct 31 1)
      [LifetimeOp.acquire, LifetimeOp.release, LifetimeOp.release] :=
  have h := refcount_correctness env0 2 (by decide)
    [LifetimeOp.acquire, LifetimeOp.release, LifetimeOp.release]
    (by decide) (by decide) (by decide) 1 (by decide) state0
  ⟨h.1 channel0 ⟨11, 12, 13⟩ rfl rfl rfl (by decide),
   h.2.1 call0 ⟨21, 22, 23⟩ rfl rfl rfl (by decide),
   h.2.2.1 server0 ⟨31, 32⟩ rfl rfl rfl (by decide) (fun _ hw => hw)⟩

/-! ### Metadata fetch on an absent credential or a missing entry -/

/-- C2: when the call credential is absent, or is live with a table that has
no `get_request_metadata` entry, the fetch returns `true` and the state after
it is the state before it: the metadata array, the error slot and every
refcount are unchanged and nothing was added to the trace (no table entry was
called; the core never calls the completion closure itself). -/
theorem get_request_metadata_trivially_successful (env : Env)
    (creds pollent context md_array on_request_metadata error : Ptr) (st : State)
    (h : creds = NULL ∨ ∃ c vt, st.world.call_creds creds = some c ∧ c.vtable = some vt ∧
      vt.get_request_metadata = NULL) :
    grpc_call_credentials_get_request_metadata env creds pollent context md_array
      on_request_metadata error st = some (true, st) := by
  rcases h with h | ⟨c, vt, hc, hvt, hg⟩
  · simp [grpc_call_credentials_get_request_metadata, h]
  · simp [grpc_call_credentials_get_request_metadata, hc, hvt, hg]

/-- C2 at concrete inputs: the absent credential, and the credential at
address 2 of `state0`, whose table is empty. -/
theorem get_request_metadata_trivially_successful_witness :
    grpc_call_credentials_get_request_metadata env0 NULL 5 6 7 8 9 state0 = some (true, state0) ∧
    grpc_call_credentials_get_request_metadata env0 2 5 6 7 8 9 state0 = some (true, state0) :=
  ⟨get_request_metadata_trivially_successful env0 NULL 5 6 7 8 9 state0 (Or.inl rfl),
   get_request_metadata_trivially_successful env0 2 5 6 7 8 9 state0
    (Or.inr ⟨call_bare, ⟨NULL, NULL, NULL⟩, rfl, rfl, rfl⟩)⟩

/-! ### Security connector factory -/

/-- C3 as stated fails: with an absent channel credential, the connector
output slot at address 100, which holds 7 on entry, still holds 7 afterwards:
the status is `GRPC_SECURITY_ERROR`, the replacement-config slot (address 101)
holds `NULL`, the connector slot is not null. -/
theorem channel_connector_absent_counterexample :
    (grpc_channel_credentials_create_security_connector env0 NULL 8 9 100 101 state0).map
        (fun r => (r.1, r.2.world.cells 100, r.2.world.cells 101)) =
      some (grpc_security_status.GRPC_SECURITY_ERROR, 7, NULL) := by
  decide

/-- C3 amended: with an absent channel credential, for every target, config
and content of the two output slots, the call returns `GRPC_SECURITY_ERROR`
and its only effect is to store `NULL` in the replacement-config output: the
trace is unchanged (no table entry is called) and the connector output, a slot
other than the replacement-config one, holds what it held on entry. -/
theorem channel_connector_absent (env : Env) (target args sc new_args : Ptr) (st : State)
    (hnew : new_args ≠ NULL) :
    grpc_channel_credentials_create_security_connector env NULL target args sc new_args st =
      some (grpc_security_status.GRPC_SECURITY_ERROR,
            { st with world := st.world.set_cell new_args NULL }) ∧
    (st.world.set_cell new_args NULL).cells new_args = NULL ∧
    (sc ≠ new_args → (st.world.set_cell new_args NULL).cells sc = st.world.cells sc) := by
  refine ⟨by simp [grpc_channel_credentials_create_security_connector, hnew],
    by simp [World.set_cell], ?_⟩
  intro hne
  simp [World.set_cell, Function.update_noteq hne]

/-- C3 amended, at a concrete input. -/
theorem channel_connector_absent_witness :
    grpc_channel_credentials_create_security_connector env0 NULL 8 9 100 101 state0 =
      some (grpc_security_status.GRPC_SECURITY_ERROR,
            { state0 with world := state0.world.set_cell 101 NULL }) ∧
    (state0.world.set_cell 101 NULL).cells 101 = NULL ∧
    ((100 : Ptr) ≠ 101 → (state0.world.set_cell 101 NULL).cells 100 = state0.world.cells 100) :=
  channel_connector_absent env0 8 9 100 101 state0 (by decide)

/-- C4 as stated fails: with an absent server credential, the connector output
slot at address 100, which holds 7 on entry, still holds 7 afterwards: the
status is `GRPC_SECURITY_ERROR` and the connector slot is not null. -/
theorem server_connector_absent_counterexample :
    (grpc_server_credentials_create_security_connector env0 NULL 100 state0).map
        (fun r => (r.1, r.2.world.cells 100)) =
      some (grpc_security_status.GRPC_SECURITY_ERROR, 7) := by
  decide

/-- C4 amended.  For a server credential that is absent, or live with a table
that has no `create_security_connector` entry, the call returns
`GRPC_SECURITY_ERROR`, logs one line and changes no memory: no table entry is
called and the connector output holds what it held on entry.  For a live
server credential whose table has the entry, the returned status and the
memory afterwards (the connector output included) are exactly what the entry
produces when called once on that credential and that output slot. -/
theorem server_connector_factory (env : Env) (creds sc : Ptr) (st : State) :
    ((creds = NULL ∨ ∃ c vt, st.world.server_creds creds = some c ∧ c.vtable = some vt ∧
        vt.create_security_connector = NULL) →
      grpc_server_credentials_create_security_connector env creds sc st =
        some (grpc_security_status.GRPC_SECURITY_ERROR,
              { st with trace := st.trace ++
                  [Event.log "Server credentials cannot create security context."] })) ∧
    (∀ c vt, creds ≠ NULL → st.world.server_creds creds = some c → c.vtable = some vt →
      vt.create_security_connector ≠ NULL →
      grpc_server_credentials_create_security_connector env creds sc st =
        some ((env.server_create_security_connector vt.create_security_connector creds sc
                st.world).1,
              { world := (env.server_create_security_connector vt.create_security_connector
                  creds sc st.world).2,
                trace := st.trace ++ [Event.server_create_security_connector
                  vt.create_security_connector creds sc] })) := by
  constructor
  · rintro (h | ⟨c, vt, hc, hvt, hg⟩)
    · simp [grpc_server_credentials_create_security_connector, h]
    · simp [grpc_server_credentials_create_security_connector, hc, hvt, hg]
  · intro c vt hp hc hvt hg
    simp [grpc_server_credentials_create_security_connector, hp, hc, hvt, hg]

/-- C4 amended, at concrete inputs: the absent credential, the credential
with an empty table at address 2 and the one with a full table at address 1. -/
theorem server_connector_factory_witness :
    grpc_server_credentials_create_security_connector env0 NULL 100 state0 =
      some (grpc_security_status.GRPC_SECURITY_ERROR,
            { state0 with trace := state0.trace ++
                [Event.log "Server credentials cannot create security context."] }) ∧
    grpc_server_credentials_create_security_connector env0 2 100 state0 =
      some (grpc_security_status.GRPC_SECURITY_ERROR,
            { state0 with trace := state0.trace ++
                [Event.log "Server credentials cannot create security context."] }) ∧
    grpc_server_credentials_create_security_connector env0 1 100 state0 =
      some ((env0.server_create_security_connector 32 1 100 state0.world).1,
            { world := (env0.server_create_security_connector 32 1 100 state0.world).2,
              trace := state0.trace ++ [Event.server_create_security_connector 32 1 100] }) :=
  ⟨(server_connector_factory env0 NULL 100 state0).1 (Or.inl rfl),
   (server_connector_factory env0 2 100 state0).1
     (Or.inr ⟨server_bare, ⟨NULL, NULL⟩, rfl, rfl, rfl⟩),
   (server_connector_factory env0 1 100 state0).2 server0 ⟨31, 32⟩ (by decide) rfl rfl
     (by decide)⟩

/-- C5 as stated fails: the core has no call-credential argument and hands the
table entry a literal `NULL`.  With an entry that answers
`GRPC_SECURITY_ERROR` to an absent call credential and `GRPC_SECURITY_OK` to a
present one, the core returns `GRPC_SECURITY_ERROR` for the credential at
address 1, while the entry invoked with the present call credential 5 (same
target, config and output slots, replacement-config slot absent on entry)
returns `GRPC_SECURITY_OK`. -/
theorem channel_connector_delegation_counterexample :
    (grpc_channel_credentials_create_security_connector env_call_sensitive 1 8 9 100 101
        state0).map Prod.fst = some grpc_security_status.GRPC_SECURITY_ERROR ∧
    (env_call_sensitive.channel_create_security_connector 12 1 5 8 9 100 101
        (state0.world.set_cell 101 NULL)).1 = grpc_security_status.GRPC_SECURITY_OK := by
  decide

/-- C5 amended: for a live channel credential whose table has the
`create_security_connector` entry, the call returns exactly the status, and
leaves exactly the memory (connector and replacement-config outputs included),
that the entry produces when called once with that credential, an absent call
credential (`NULL`), that target and config and the two output slots, in the
memory where the replacement-config output has been set to `NULL`. -/
theorem channel_connector_delegation (env : Env) (creds target args sc new_args : Ptr)
    (st : State) (c : grpc_channel_credentials) (vt : grpc_channel_credentials_vtable)
    (hp : creds ≠ NULL) (hnew : new_args ≠ NULL)
    (hc : st.world.channel_creds creds = some c) (hvt : c.vtable = some vt)
    (hg : vt.create_security_connector ≠ NULL) :
    grpc_channel_credentials_create_security_connector env creds target args sc new_args st =
      some ((env.channel_create_security_connector vt.create_security_connector creds NULL
              target args sc new_args (st.world.set_cell new_args NULL)).1,
            { world := (env.channel_create_security_connector vt.create_security_connector
                creds NULL target args sc new_args (st.world.set_cell new_args NULL)).2,
              trace := st.trace ++ [Event.channel_create_security_connector
                vt.create_security_connector creds NULL target args sc new_args] }) ∧
    (st.world.set_cell new_args NULL).cells new_args = NULL := by
  have hc1 : (st.world.set_cell new_args NULL).channel_creds creds = some c := by
    simpa [World.set_cell] using hc
  constructor
  · simp [grpc_channel_credentials_create_security_connector, hp, hnew, hc1, hvt, hg]
  · simp [World.set_cell]

/-- C5 amended, at a concrete input: the credential at address 1 of `state0`. -/
theorem channel_connector_delegation_witness :
    grpc_channel_credentials_create_security_connector env0 1 8 9 100 101 state0 =
      some ((env0.channel_create_security_connector 12 1 NULL 8 9 100 101
              (state0.world.set_cell 101 NULL)).1,
            { world := (env0.channel_create_security_connector 12 1 NULL 8 9 100 101
                (state0.world.set_cell 101 NULL)).2,
              trace := state0.trace ++
                [Event.channel_create_security_connector 12 1 NULL 8 9 100 101] }) ∧
    (state0.world.set_cell 101 NULL).cells 101 = NULL :=
  channel_connector_delegation env0 1 8 9 100 101 state0 channel0 ⟨11, 12, 13⟩
    (by decide) (by decide) rfl rfl (by decide)

/-! ### Argument adapter -/

theorem strcmp_eq_zero_iff (a b : String) : strcmp a b = 0 ↔ a = b := by
  unfold strcmp
  by_cases h : a = b
  · simp [h]
  · simp only [h, if_false, iff_false]
    split <;> decide

/-- C6, argument round-trip for both kinds: whenever the helper that builds
the argument yields a pointer-typed argument under the key it is given holding
the pointer it is given, `from_arg` of `to_arg` of a credential `c` (the
absent one included) is `c`, and the state is unchanged. -/
theorem arg_round_trip (pointer_create : String → Ptr → grpc_arg_pointer_vtable → grpc_arg)
    (hcreate : ∀ name value vt,
      (pointer_create name value vt).type = grpc_arg_type.GRPC_ARG_POINTER ∧
      (pointer_create name value vt).key = name ∧
      (pointer_create name value vt).value.pointer.p = value)
    (GRPC_ARG_CHANNEL_CREDENTIALS GRPC_SERVER_CREDENTIALS_ARG : String) (c : Ptr) (st : State) :
    grpc_channel_credentials_from_arg GRPC_ARG_CHANNEL_CREDENTIALS
        (grpc_channel_credentials_to_arg pointer_create GRPC_ARG_CHANNEL_CREDENTIALS c) st
      = (c, st) ∧
    grpc_server_credentials_from_arg GRPC_SERVER_CREDENTIALS_ARG
        (grpc_server_credentials_to_arg pointer_create GRPC_SERVER_CREDENTIALS_ARG c) st
      = (c, st) := by
  constructor
  · obtain ⟨ht, hk, hv⟩ := hcreate GRPC_ARG_CHANNEL_CREDENTIALS c credentials_pointer_vtable
    simp [grpc_channel_credentials_from_arg, grpc_channel_credentials_to_arg, ht, hk, hv,
      strcmp_eq_zero_iff]
  · obtain ⟨ht, hk, hv⟩ := hcreate GRPC_SERVER_CREDENTIALS_ARG c cred_ptr_vtable
    simp [grpc_server_credentials_from_arg, grpc_server_credentials_to_arg, ht, hk, hv,
      strcmp_eq_zero_iff]

/-- C6 at concrete inputs: the modelled helper, the credential at address 1
and the absent credential. -/
theorem arg_round_trip_witness :
    (grpc_channel_credentials_from_arg "grpc.channel_credentials"
        (grpc_channel_credentials_to_arg grpc_channel_arg_pointer_create
          "grpc.channel_credentials" 1) state0 = (1, state0) ∧
     grpc_server_credentials_from_arg "grpc.server_credentials"
        (grpc_server_credentials_to_arg grpc_channel_arg_pointer_create
          "grpc.server_credentials" 1) state0 = (1, state0)) ∧
    (grpc_channel_credentials_from_arg "grpc.channel_credentials"
        (grpc_channel_credentials_to_arg grpc_channel_arg_pointer_create
          "grpc.channel_credentials" NULL) state0 = (NULL, state0) ∧
     grpc_server_credentials_from_arg "grpc.server_credentials"
        (grpc_server_credentials_to_arg grpc_channel_arg_pointer_create
          "grpc.server_credentials" NULL) state0 = (NULL, state0)) :=
  ⟨arg_round_trip grpc_channel_arg_pointer_create (fun _ _ _ => ⟨rfl, rfl, rfl⟩)
     "grpc.channel_credentials" "grpc.server_credentials" 1 state0,
   arg_round_trip grpc_channel_arg_pointer_create (fun _ _ _ => ⟨rfl, rfl, rfl⟩)
     "grpc.channel_credentials" "grpc.server_credentials" NULL state0⟩

theorem World.set_channel_restore (w : World) (p : Ptr) (a : Option grpc_channel_credentials)
    (c : grpc_channel_credentials) (h : w.channel_creds p = some c) :
    (w.set_channel p a).set_channel p (some c) = w := by
  cases w
  simp only [World.set_channel, Function.update_idem] at *
  rw [← h, Function.update_eq_self]

theorem World.set_call_restore (w : World) (p : Ptr) (a : Option grpc_call_credentials)
    (c : grpc_call_credentials) (h : w.call_creds p = some c) :
    (w.set_call p a).set_call p (some c) = w := by
  cases w
  simp only [World.set_call, Function.update_idem] at *
  rw [← h, Function.update_eq_self]

theorem World.set_server_restore (w : World) (p : Ptr) (a : Option grpc_server_credentials)
    (c : grpc_server_credentials) (h : w.server_creds p = some c) :
    (w.set_server p a).set_server p (some c) = w := by
  cases w
  simp only [World.set_server, Function.update_idem] at *
  rw [← h, Function.update_eq_self]

/-- The two copy/destroy/compare tables of this file: copy is acquire, destroy
is release; on a live credential with refcount at least 1 a copy followed by a
destroy gives back the starting state; on `NULL` copy returns `NULL` and
destroy does nothing. -/
theorem pointer_vtables_own (env : Env) (p : Ptr) (hp : p ≠ NULL) (st : State) :
    (credentials_pointer_vtable.copy = grpc_channel_credentials_ref ∧
     credentials_pointer_vtable.destroy = grpc_channel_credentials_unref ∧
     cred_ptr_vtable.copy = grpc_server_credentials_ref ∧
     cred_ptr_vtable.destroy = grpc_server_credentials_unref) ∧
    (∀ c, st.world.channel_creds p = some c → 1 ≤ c.refcount →
      credentials_pointer_vtable.copy p st =
        some (p, { st with world :=
                    st.world.set_channel p (some { c with refcount := c.refcount + 1 }) }) ∧
      credentials_pointer_vtable.destroy env p
        { st with world :=
            st.world.set_channel p (some { c with refcount := c.refcount + 1 }) } = some st) ∧
    (∀ c, st.world.server_creds p = some c → 1 ≤ c.refcount →
      cred_ptr_vtable.copy p st =
        some (p, { st with world :=
                    st.world.set_server p (some { c with refcount := c.refcount + 1 }) }) ∧
      cred_ptr_vtable.destroy env p
        { st with world :=
            st.world.set_server p (some { c with refcount := c.refcount + 1 }) } = some st) ∧
    (credentials_pointer_vtable.copy NULL st = some (NULL, st) ∧
     credentials_pointer_vtable.destroy env NULL st = some st ∧
     cred_ptr_vtable.copy NULL st = some (NULL, st) ∧
     cred_ptr_vtable.destroy env NULL st = some st) := by
  refine ⟨⟨rfl, rfl, rfl, rfl⟩, ?_, ?_, ?_⟩
  · intro c hc hk
    refine ⟨channel_ref_live p st c hp hc, ?_⟩
    have hlive := channel_unref_live env p
      { st with world := st.world.set_channel p (some { c with refcount := c.refcount + 1 }) }
      { c with refcount := c.refcount + 1 } hp (by simp [World.set_channel])
      (by simp only; omega)
    show grpc_channel_credentials_unref env p _ = some st
    rw [hlive]
    have hc' : ({ c with refcount := c.refcount + 1 - 1 } : grpc_channel_credentials) = c := by
      cases c; simp
    simp only [hc', World.set_channel_restore st.world p _ c hc]
  · intro c hc hk
    refine ⟨server_ref_live p st c hp hc, ?_⟩
    have hlive := server_unref_live env p
      { st with world := st.world.set_server p (some { c with refcount := c.refcount + 1 }) }
      { c with refcount := c.refcount + 1 } hp (by simp [World.set_server])
      (by simp only; omega)
    show grpc_server_credentials_unref env p _ = some st
    rw [hlive]
    have hc' : ({ c with refcount := c.refcount + 1 - 1 } : grpc_server_credentials) = c := by
      cases c; simp
    simp only [hc', World.set_server_restore st.world p _ c hc]
  · refine ⟨?_, ?_, ?_, ?_⟩
    · simp [credentials_pointer_vtable, credentials_pointer_arg_copy,
        grpc_channel_credentials_ref]
    · simp [credentials_pointer_vtable, credentials_pointer_arg_destroy,
        grpc_channel_credentials_unref]
    · simp [cred_ptr_vtable, server_credentials_pointer_arg_copy, grpc_server_credentials_ref]
    · simp [cred_ptr_vtable, server_credentials_pointer_arg_destroy,
        grpc_server_credentials_unref]

/-- C7, ownership of the argument wrapper, for both kinds.  Let the helper
that builds the argument store the pointer and the copy/destroy/compare triple
it is given.  Then the argument `to_arg` returns for a credential holds that
credential and carries the table of this file for its kind; the copy function
of that wrapper is acquire and its destroy function is release.  On a live
credential with refcount at least 1, the wrapper's copy returns the same
pointer and raises the refcount by exactly 1, and the wrapper's destroy of the
copy gives back exactly the starting state: the refcount has its starting
value and the trace is unchanged, so neither `destruct` nor the processor
destructor was invoked.  On an absent pointer the wrapper's copy returns
absent and its destroy does nothing. -/
theorem arg_wrapper_ownership
    (pointer_create : String → Ptr → grpc_arg_pointer_vtable → grpc_arg)
    (hcreate : ∀ name value vt,
      (pointer_create name value vt).value.pointer.p = value ∧
      (pointer_create name value vt).value.pointer.vtable = some vt)
    (GRPC_ARG_CHANNEL_CREDENTIALS GRPC_SERVER_CREDENTIALS_ARG : String)
    (env : Env) (p : Ptr) (hp : p ≠ NULL) (st : State) :
    ((∀ c, (grpc_channel_credentials_to_arg pointer_create GRPC_ARG_CHANNEL_CREDENTIALS
              c).value.pointer.p = c ∧
           (grpc_channel_credentials_to_arg pointer_create GRPC_ARG_CHANNEL_CREDENTIALS
              c).value.pointer.vtable = some credentials_pointer_vtable) ∧
     (∀ c, (grpc_server_credentials_to_arg pointer_create GRPC_SERVER_CREDENTIALS_ARG
              c).value.pointer.p = c ∧
           (grpc_server_credentials_to_arg pointer_create GRPC_SERVER_CREDENTIALS_ARG
              c).value.pointer.vtable = some cred_ptr_vtable)) ∧
    ((∀ c s, (grpc_channel_credentials_to_arg pointer_create GRPC_ARG_CHANNEL_CREDENTIALS
                c).wrapper_copy s = grpc_channel_credentials_ref c s) ∧
     (∀ c s, (grpc_channel_credentials_to_arg pointer_create GRPC_ARG_CHANNEL_CREDENTIALS
                c).wrapper_destroy env s = grpc_channel_credentials_unref env c s) ∧
     (∀ c s, (grpc_server_credentials_to_arg pointer_create GRPC_SERVER_CREDENTIALS_ARG
                c).wrapper_copy s = grpc_server_credentials_ref c s) ∧
     (∀ c s, (grpc_server_credentials_to_arg pointer_create GRPC_SERVER_CREDENTIALS_ARG
                c).wrapper_destroy env s = grpc_server_credentials_unref env c s)) ∧
    (∀ c, st.world.channel_creds p = some c → 1 ≤ c.refcount →
      (grpc_channel_credentials_to_arg pointer_create GRPC_ARG_CHANNEL_CREDENTIALS
          p).wrapper_copy st =
        some (p, { st with world :=
                    (st.world.set_channel p (some { c with refcount := c.refcount + 1 })) }) ∧
      (grpc_channel_credentials_to_arg pointer_create GRPC_ARG_CHANNEL_CREDENTIALS
          p).wrapper_destroy env
        { st with world :=
            (st.world.set_channel p (some { c with refcount := c.refcount + 1 })) } =
        some st) ∧
    (∀ c, st.world.server_creds p = some c → 1 ≤ c.refcount →
      (grpc_server_credentials_to_arg pointer_create GRPC_SERVER_CREDENTIALS_ARG
          p).wrapper_copy st =
        some (p, { st with world :=
                    (st.world.set_server p (some { c with refcount := c.refcount + 1 })) }) ∧
      (grpc_server_credentials_to_arg pointer_create GRPC_SERVER_CREDENTIALS_ARG
          p).wrapper_destroy env
        { st with world :=
            (st.world.set_server p (some { c with refcount := c.refcount + 1 })) } =
        some st) ∧
    ((grpc_channel_credentials_to_arg pointer_create GRPC_ARG_CHANNEL_CREDENTIALS
        NULL).wrapper_copy st = some (NULL, st) ∧
     (grpc_channel_credentials_to_arg pointer_create GRPC_ARG_CHANNEL_CREDENTIALS
        NULL).wrapper_destroy env st = some st ∧
     (grpc_server_credentials_to_arg pointer_create GRPC_SERVER_CREDENTIALS_ARG
        NULL).wrapper_copy st = some (NULL, st) ∧
     (grpc_server_credentials_to_arg pointer_create GRPC_SERVER_CREDENTIALS_ARG
        NULL).wrapper_destroy env st = some st) := by
  have hch : ∀ c, (grpc_channel_credentials_to_arg pointer_create
        GRPC_ARG_CHANNEL_CREDENTIALS c).value.pointer.p = c ∧
      (grpc_channel_credentials_to_arg pointer_create
        GRPC_ARG_CHANNEL_CREDENTIALS c).value.pointer.vtable =
        some credentials_pointer_vtable :=
    fun c => hcreate GRPC_ARG_CHANNEL_CREDENTIALS c credentials_pointer_vtable
  have hsv : ∀ c, (grpc_server_credentials_to_arg pointer_create
        GRPC_SERVER_CREDENTIALS_ARG c).value.pointer.p = c ∧
      (grpc_server_credentials_to_arg pointer_create
        GRPC_SERVER_CREDENTIALS_ARG c).value.pointer.vtable = some cred_ptr_vtable :=
    fun c => hcreate GRPC_SERVER_CREDENTIALS_ARG c cred_ptr_vtable
  have hcc : ∀ c s, (grpc_channel_credentials_to_arg pointer_create
      GRPC_ARG_CHANNEL_CREDENTIALS c).wrapper_copy s = credentials_pointer_vtable.copy c s := by
    intro c s; simp only [grpc_arg.wrapper_copy, (hch c).1, (hch c).2]
  have hcd : ∀ c s, (grpc_channel_credentials_to_arg pointer_create
      GRPC_ARG_CHANNEL_CREDENTIALS c).wrapper_destroy env s =
        credentials_pointer_vtable.destroy env c s := by
    intro c s; simp only [grpc_arg.wrapper_destroy, (hch c).1, (hch c).2]
  have hsc : ∀ c s, (grpc_server_credentials_to_arg pointer_create
      GRPC_SERVER_CREDENTIALS_ARG c).wrapper_copy s = cred_ptr_vtable.copy c s := by
    intro c s; simp only [grpc_arg.wrapper_copy, (hsv c).1, (hsv c).2]
  have hsd : ∀ c s, (grpc_server_credentials_to_arg pointer_create
      GRPC_SERVER_CREDENTIALS_ARG c).wrapper_destroy env s =
        cred_ptr_vtable.destroy env c s := by
    intro c s; simp only [grpc_arg.wrapper_destroy, (hsv c).1, (hsv c).2]
  obtain ⟨_, hlc, hls, hn1, hn2, hn3, hn4⟩ := pointer_vtables_own env p hp st
  refine ⟨⟨hch, hsv⟩, ⟨fun c s => hcc c s, fun c s => hcd c s, fun c s => hsc c s,
    fun c s => hsd c s⟩, ?_, ?_, ?_⟩
  · intro c hc hk
    rw [hcc, hcd]
    exact hlc c hc hk
  · intro c hc hk
    rw [hsc, hsd]
    exact hls c hc hk
  · rw [hcc, hcd, hsc, hsd]
    exact ⟨hn1, hn2, hn3, hn4⟩

/-- C7 at a concrete input: the arguments built by the modelled helper for the
credentials at address 1 of `state0`, whose refcount is 1. -/
theorem arg_wrapper_ownership_witness :
    ((grpc_channel_credentials_to_arg grpc_channel_arg_pointer_create
          "grpc.channel_credentials" 1).wrapper_copy state0 =
        some (1, { state0 with world := (state0.world.set_channel 1
                    (some { channel0 with refcount := channel0.refcount + 1 })) }) ∧
      (grpc_channel_credentials_to_arg grpc_channel_arg_pointer_create
          "grpc.channel_credentials" 1).wrapper_destroy env0
        { state0 with world := (state0.world.set_channel 1
            (some { channel0 with refcount := channel0.refcount + 1 })) } = some state0) ∧
    ((grpc_server_credentials_to_arg grpc_channel_arg_pointer_create
          "grpc.server_credentials" 1).wrapper_copy state0 =
        some (1, { state0 with world := (state0.world.set_server 1
                    (some { server0 with refcount := server0.refcount + 1 })) }) ∧
      (grpc_server_credentials_to_arg grpc_channel_arg_pointer_create
          "grpc.server_credentials" 1).wrapper_destroy env0
        { state0 with world := (state0.world.set_server 1
            (some { server0 with refcount := server0.refcount + 1 })) } = some state0) :=
  have h := arg_wrapper_ownership grpc_channel_arg_pointer_create
    (fun _ _ _ => ⟨rfl, rfl⟩) "grpc.channel_credentials" "grpc.server_credentials"
    env0 1 (by decide) state0
  ⟨h.2.2.1 channel0 rfl (by decide), h.2.2.2.1 server0 rfl (by decide)⟩

/-- C8, `from_arg` for both kinds and every argument: absent when the key is
not the fixed key; absent (after one log line) when the key matches and the
type is not the pointer type; otherwise exactly the pointer stored in the
argument.  In every case memory is unchanged, so no refcount changes. -/
theorem from_arg_cases (GRPC_ARG_CHANNEL_CREDENTIALS GRPC_SERVER_CREDENTIALS_ARG : String)
    (arg : grpc_arg) (st : State) :
    ((arg.key ≠ GRPC_ARG_CHANNEL_CREDENTIALS →
        grpc_channel_credentials_from_arg GRPC_ARG_CHANNEL_CREDENTIALS arg st = (NULL, st)) ∧
     (arg.key = GRPC_ARG_CHANNEL_CREDENTIALS → arg.type ≠ grpc_arg_type.GRPC_ARG_POINTER →
        grpc_channel_credentials_from_arg GRPC_ARG_CHANNEL_CREDENTIALS arg st =
          (NULL, { st with trace := st.trace ++ [Event.log "Invalid type %d for arg %s"] })) ∧
     (arg.key = GRPC_ARG_CHANNEL_CREDENTIALS → arg.type = grpc_arg_type.GRPC_ARG_POINTER →
        grpc_channel_credentials_from_arg GRPC_ARG_CHANNEL_CREDENTIALS arg st =
          (arg.value.pointer.p, st)) ∧
     (grpc_channel_credentials_from_arg GRPC_ARG_CHANNEL_CREDENTIALS arg st).2.world =
        st.world) ∧
    ((arg.key ≠ GRPC_SERVER_CREDENTIALS_ARG →
        grpc_server_credentials_from_arg GRPC_SERVER_CREDENTIALS_ARG arg st = (NULL, st)) ∧
     (arg.key = GRPC_SERVER_CREDENTIALS_ARG → arg.type ≠ grpc_arg_type.GRPC_ARG_POINTER →
        grpc_server_credentials_from_arg GRPC_SERVER_CREDENTIALS_ARG arg st =
          (NULL, { st with trace := st.trace ++ [Event.log "Invalid type %d for arg %s"] })) ∧
     (arg.key = GRPC_SERVER_CREDENTIALS_ARG → arg.type = grpc_arg_type.GRPC_ARG_POINTER →
        grpc_server_credentials_from_arg GRPC_SERVER_CREDENTIALS_ARG arg st =
          (arg.value.pointer.p, st)) ∧
     (grpc_server_credentials_from_arg GRPC_SERVER_CREDENTIALS_ARG arg st).2.world =
        st.world) := by
  refine ⟨⟨?_, ?_, ?_, ?_⟩, ⟨?_, ?_, ?_, ?_⟩⟩
  · intro hk
    simp [grpc_channel_credentials_from_arg, strcmp_eq_zero_iff, hk]
  · intro hk ht
    simp [grpc_channel_credentials_from_arg, strcmp_eq_zero_iff, hk, ht]
  · intro hk ht
    simp [grpc_channel_credentials_from_arg, strcmp_eq_zero_iff, hk, ht]
  · unfold grpc_channel_credentials_from_arg
    split
    · rfl
    · split <;> rfl
  · intro hk
    simp [grpc_server_credentials_from_arg, strcmp_eq_zero_iff, hk]
  · intro hk ht
    simp [grpc_server_credentials_from_arg, strcmp_eq_zero_iff, hk, ht]
  · intro hk ht
    simp [grpc_server_credentials_from_arg, strcmp_eq_zero_iff, hk, ht]
  · unfold grpc_server_credentials_from_arg
    split
    · rfl
    · split <;> rfl

/-- C8 at concrete inputs, for the channel kind: an argument under another
key, one of integer type under the channel key, and one of pointer type under
the channel key holding the pointer 5. -/
theorem from_arg_cases_witness :
    grpc_channel_credentials_from_arg "grpc.channel_credentials"
        (mk_arg grpc_arg_type.GRPC_ARG_POINTER "grpc.server_credentials" 5) state0
      = (NULL, state0) ∧
    grpc_channel_credentials_from_arg "grpc.channel_credentials"
        (mk_arg grpc_arg_type.GRPC_ARG_INTEGER "grpc.channel_credentials" 5) state0
      = (NULL, { state0 with
          trace := state0.trace ++ [Event.log "Invalid type %d for arg %s"] }) ∧
    grpc_channel_credentials_from_arg "grpc.channel_credentials"
        (mk_arg grpc_arg_type.GRPC_ARG_POINTER "grpc.channel_credentials" 5) state0
      = (5, state0) :=
  ⟨(from_arg_cases "grpc.channel_credentials" "grpc.server_credentials"
      (mk_arg grpc_arg_type.GRPC_ARG_POINTER "grpc.server_credentials" 5) state0).1.1
      (by decide),
   (from_arg_cases "grpc.channel_credentials" "grpc.server_credentials"
      (mk_arg grpc_arg_type.GRPC_ARG_INTEGER "grpc.channel_credentials" 5) state0).1.2.1
      rfl (by decide),
   (from_arg_cases "grpc.channel_credentials" "grpc.server_credentials"
      (mk_arg grpc_arg_type.GRPC_ARG_POINTER "grpc.channel_credentials" 5) state0).1.2.2.1
      rfl rfl⟩

/-- C9 as stated fails, for both kinds.  In `channel_args2` the first entry
under the channel key has integer type; in `server_args2` the first entry under
the server key holds a null pointer.  The claim's reading gives absent in both
cases (what the first entry with the key yields); the code goes on scanning
and returns the pointer 5 of the second entry. -/
theorem find_in_args_counterexample :
    ((grpc_channel_credentials_find_in_args "grpc.channel_credentials"
        (some channel_args2) state0).1 = 5 ∧
     find_by_first_key grpc_channel_credentials_from_arg "grpc.channel_credentials"
        (some channel_args2) state0 = NULL) ∧
    ((grpc_find_server_credentials_in_args "grpc.server_credentials"
        (some server_args2) state0).1 = 5 ∧
     find_by_first_key grpc_server_credentials_from_arg "grpc.server_credentials"
        (some server_args2) state0 = NULL) := by
  decide

theorem channel_from_arg_usable (K : String) (a : grpc_arg) (st : State) :
    (grpc_channel_credentials_from_arg K a st).1 =
        (if usable_entry K a then a.value.pointer.p else NULL) ∧
    (grpc_channel_credentials_from_arg K a st).2.world = st.world := by
  unfold grpc_channel_credentials_from_arg usable_entry
  by_cases hk : a.key = K
  · by_cases ht : a.type = grpc_arg_type.GRPC_ARG_POINTER
    · by_cases hp : a.value.pointer.p = NULL
      · simp [strcmp_eq_zero_iff, hk, ht, hp]
      · simp [strcmp_eq_zero_iff, hk, ht, hp]
    · simp [strcmp_eq_zero_iff, hk, ht]
  · simp [strcmp_eq_zero_iff, hk]

theorem server_from_arg_usable (K : String) (a : grpc_arg) (st : State) :
    (grpc_server_credentials_from_arg K a st).1 =
        (if usable_entry K a then a.value.pointer.p else NULL) ∧
    (grpc_server_credentials_from_arg K a st).2.world = st.world := by
  unfold grpc_server_credentials_from_arg usable_entry
  by_cases hk : a.key = K
  · by_cases ht : a.type = grpc_arg_type.GRPC_ARG_POINTER
    · by_cases hp : a.value.pointer.p = NULL
      · simp [strcmp_eq_zero_iff, hk, ht, hp]
      · simp [strcmp_eq_zero_iff, hk, ht, hp]
    · simp [strcmp_eq_zero_iff, hk, ht]
  · simp [strcmp_eq_zero_iff, hk]

theorem usable_entry_pointer (K : String) (a : grpc_arg) (h : usable_entry K a = true) :
    a.value.pointer.p ≠ NULL := by
  unfold usable_entry at h
  simp only [Bool.and_eq_true, decide_eq_true_eq] at h
  exact h.2

theorem channel_find_loop_spec (K : String) (l : List grpc_arg) :
    ∀ st : State,
      (grpc_channel_credentials_find_in_args_loop K l st).1 =
          (match l.find? (usable_entry K) with
           | none => NULL
           | some x => x.value.pointer.p) ∧
      (grpc_channel_credentials_find_in_args_loop K l st).2.world = st.world := by
  induction l with
  | nil => intro st; simp [grpc_channel_credentials_find_in_args_loop]
  | cons a rest ih =>
    intro st
    obtain ⟨h1, h2⟩ := channel_from_arg_usable K a st
    by_cases hu : usable_entry K a = true
    · have hp := usable_entry_pointer K a hu
      simp only [hu, if_true] at h1
      simp [grpc_channel_credentials_find_in_args_loop, h1, hp, h2, List.find?_cons, hu]
    · simp only [hu, if_false] at h1
      obtain ⟨i1, i2⟩ := ih (grpc_channel_credentials_from_arg K a st).2
      simp only [Bool.not_eq_true] at hu
      simp [grpc_channel_credentials_find_in_args_loop, h1, List.find?_cons, hu, i1, i2, h2]

theorem server_find_loop_spec (K : String) (l : List grpc_arg) :
    ∀ st : State,
      (grpc_find_server_credentials_in_args_loop K l st).1 =
          (match l.find? (usable_entry K) with
           | none => NULL
           | some x => x.value.pointer.p) ∧
      (grpc_find_server_credentials_in_args_loop K l st).2.world = st.world := by
  induction l with
  | nil => intro st; simp [grpc_find_server_credentials_in_args_loop]
  | cons a rest ih =>
    intro st
    obtain ⟨h1, h2⟩ := server_from_arg_usable K a st
    by_cases hu : usable_entry K a = true
    · have hp := usable_entry_pointer K a hu
      simp only [hu, if_true] at h1
      simp [grpc_find_server_credentials_in_args_loop, h1, hp, h2, List.find?_cons, hu]
    · simp only [hu, if_false] at h1
      obtain ⟨i1, i2⟩ := ih (grpc_server_credentials_from_arg K a st).2
      simp only [Bool.not_eq_true] at hu
      simp [grpc_find_server_credentials_in_args_loop, h1, List.find?_cons, hu, i1, i2, h2]

theorem find_first_usable_eq_null (K : String) (args : Option grpc_channel_args) :
    find_first_usable K args = NULL ↔
      (args = none ∨ ∃ a, args = some a ∧ ∀ x ∈ a.args, usable_entry K x = false) := by
  cases args with
  | none => simp [find_first_usable]
  | some a =>
    simp only [find_first_usable, reduceCtorEq, Option.some.injEq, exists_eq_left', false_or]
    cases hf : a.args.find? (usable_entry K) with
    | none =>
      simp only [true_iff]
      intro x hx
      have := List.find?_eq_none.mp hf x hx
      simpa using this
    | some x =>
      have hx : usable_entry K x = true := List.find?_some hf
      have hmem : x ∈ a.args := List.mem_of_find?_eq_some hf
      constructor
      · intro h; exact absurd h (usable_entry_pointer K x hx)
      · intro h; rw [h x hmem] at hx; exact absurd hx (by decide)

/-- C9 amended, for both kinds and every argument list: the result is the
pointer stored in the first entry (lowest index) that has the kind's fixed
key, the pointer type and a non-null pointer; it is absent exactly when the
list is absent or has no such entry; and memory is unchanged by the scan. -/
theorem find_in_args_first_usable
    (GRPC_ARG_CHANNEL_CREDENTIALS GRPC_SERVER_CREDENTIALS_ARG : String)
    (args : Option grpc_channel_args) (st : State) :
    ((grpc_channel_credentials_find_in_args GRPC_ARG_CHANNEL_CREDENTIALS args st).1 =
        find_first_usable GRPC_ARG_CHANNEL_CREDENTIALS args ∧
     ((grpc_channel_credentials_find_in_args GRPC_ARG_CHANNEL_CREDENTIALS args st).1 = NULL ↔
        (args = none ∨ ∃ a, args = some a ∧
          ∀ x ∈ a.args, usable_entry GRPC_ARG_CHANNEL_CREDENTIALS x = false)) ∧
     (grpc_channel_credentials_find_in_args GRPC_ARG_CHANNEL_CREDENTIALS args st).2.world =
        st.world) ∧
    ((grpc_find_server_credentials_in_args GRPC_SERVER_CREDENTIALS_ARG args st).1 =
        find_first_usable GRPC_SERVER_CREDENTIALS_ARG args ∧
     ((grpc_find_server_credentials_in_args GRPC_SERVER_CREDENTIALS_ARG args st).1 = NULL ↔
        (args = none ∨ ∃ a, args = some a ∧
          ∀ x ∈ a.args, usable_entry GRPC_SERVER_CREDENTIALS_ARG x = false)) ∧
     (grpc_find_server_credentials_in_args GRPC_SERVER_CREDENTIALS_ARG args st).2.world =
        st.world) := by
  have hc : (grpc_channel_credentials_find_in_args GRPC_ARG_CHANNEL_CREDENTIALS args st).1 =
        find_first_usable GRPC_ARG_CHANNEL_CREDENTIALS args ∧
      (grpc_channel_credentials_find_in_args GRPC_ARG_CHANNEL_CREDENTIALS args st).2.world =
        st.world := by
    cases args with
    | none => exact ⟨rfl, rfl⟩
    | some a => exact channel_find_loop_spec GRPC_ARG_CHANNEL_CREDENTIALS a.args st
  have hs : (grpc_find_server_credentials_in_args GRPC_SERVER_CREDENTIALS_ARG args st).1 =
        find_first_usable GRPC_SERVER_CREDENTIALS_ARG args ∧
      (grpc_find_server_credentials_in_args GRPC_SERVER_CREDENTIALS_ARG args st).2.world =
        st.world := by
    cases args with
    | none => exact ⟨rfl, rfl⟩
    | some a => exact server_find_loop_spec GRPC_SERVER_CREDENTIALS_ARG a.args st
  refine ⟨⟨hc.1, ?_, hc.2⟩, ⟨hs.1, ?_, hs.2⟩⟩
  · rw [hc.1]; exact find_first_usable_eq_null _ _
  · rw [hs.1]; exact find_first_usable_eq_null _ _

/-! ### Processor slot -/

theorem destroy_processor_world (env : Env) (q : grpc_auth_metadata_processor) (st : State) :
    (destroy_processor env q st).world =
      (if q.destroy ≠ NULL ∧ q.state ≠ NULL
       then env.processor_destroy q.destroy q.state st.world else st.world) := by
  unfold destroy_processor
  split <;> rfl

theorem destroy_processor_keeps (env : Env) (creds : Ptr)
    (hkeep : ∀ fn state w, w.server_creds creds ≠ none →
      (env.processor_destroy fn state w).server_creds creds ≠ none)
    (q : grpc_auth_metadata_processor) (st : State)
    (h : st.world.server_creds creds ≠ none) :
    (destroy_processor env q st).world.server_creds creds ≠ none := by
  rw [destroy_processor_world]
  split
  · exact hkeep _ _ _ h
  · exact h

/-- One call of `set_auth_metadata_processor` on a live credential, `c1` being
the envelope as read back after the guarded destructor call. -/
theorem set_processor_live (env : Env) (creds : Ptr) (q : grpc_auth_metadata_processor)
    (st : State) (c c1 : grpc_server_credentials) (hp : creds ≠ NULL)
    (hc : st.world.server_creds creds = some c)
    (hc1 : (destroy_processor env c.processor st).world.server_creds creds = some c1) :
    grpc_server_credentials_set_auth_metadata_processor env creds q st =
      some { world := (destroy_processor env c.processor st).world.set_server creds
                        (some { c1 with processor := q }),
             trace := (destroy_processor env c.processor st).trace } := by
  simp [grpc_server_credentials_set_auth_metadata_processor, hp, hc, hc1]

/-- C10 as stated fails.  On the server credential at address 3, whose slot
holds a processor with destroy function 41 and state 51, install first `p1`
(destroy function 42, state `NULL`) and then `p2` (destroy function 41, state
51).  The two calls invoke exactly one destructor, 41 on 51, during the first
call: `p1`'s destructor is never invoked, `p2`'s is. -/
theorem set_processor_twice_counterexample :
    ((grpc_server_credentials_set_auth_metadata_processor env0 3
        { process := NULL, destroy := 42, state := NULL } state0).map (fun s => s.trace) =
      some [Event.processor_destroy 41 51]) ∧
    (((grpc_server_credentials_set_auth_metadata_processor env0 3
        { process := NULL, destroy := 42, state := NULL } state0).bind
      (grpc_server_credentials_set_auth_metadata_processor env0 3
        { process := 40, destroy := 41, state := 51 })).map (fun s => s.trace) =
      some [Event.processor_destroy 41 51]) := by
  decide

/-- C10 amended.  On an absent server credential `set_auth_metadata_processor`
changes nothing and invokes nothing.  On a live server credential whose slot
holds `c.processor`, with processor destructors that do not free the
credential, installing `p1` and then `p2` succeeds and:
the first call invokes only the destructor of the processor found in the slot,
on its state, and only if that processor's destroy and state are both
non-absent; after it the slot holds `p1`;
the second call invokes `p1`'s destructor on `p1`'s state exactly once if
`p1`'s destroy and state are both non-absent, and invokes nothing otherwise;
that invocation runs on the memory left by the first call, in which the slot
still holds `p1`, and the store of `p2` comes after it;
after the second call the slot holds `p2`.
No other destructor is invoked: `p2`'s is not, unless `p2` has the destroy
function and state of `p1` or of the processor found in the slot. -/
theorem set_processor_twice (env : Env) (creds : Ptr) (p1 p2 : grpc_auth_metadata_processor)
    (st : State) (c : grpc_server_credentials) (hp : creds ≠ NULL)
    (hc : st.world.server_creds creds = some c)
    (hkeep : ∀ fn state w, w.server_creds creds ≠ none →
      (env.processor_destroy fn state w).server_creds creds ≠ none) :
    (∀ q s, grpc_server_credentials_set_auth_metadata_processor env NULL q s = some s) ∧
    ∃ st1 st2 c1 c2,
      grpc_server_credentials_set_auth_metadata_processor env creds p1 st = some st1 ∧
      grpc_server_credentials_set_auth_metadata_processor env creds p2 st1 = some st2 ∧
      st1.trace = st.trace ++
        (if c.processor.destroy ≠ NULL ∧ c.processor.state ≠ NULL
         then [Event.processor_destroy c.processor.destroy c.processor.state] else []) ∧
      st1.world.server_creds creds = some c1 ∧ c1.processor = p1 ∧
      st2.trace = st1.trace ++
        (if p1.destroy ≠ NULL ∧ p1.state ≠ NULL
         then [Event.processor_destroy p1.destroy p1.state] else []) ∧
      st2.world.server_creds creds = some c2 ∧ c2.processor = p2 ∧
      (p1.destroy ≠ NULL ∧ p1.state ≠ NULL →
        ∃ c3, (env.processor_destroy p1.destroy p1.state st1.world).server_creds creds
                = some c3 ∧
          st2.world = (env.processor_destroy p1.destroy p1.state st1.world).set_server creds
                        (some { c3 with processor := p2 })) := by
  refine ⟨fun q s => by simp [grpc_server_credentials_set_auth_metadata_processor], ?_⟩
  obtain ⟨a, ha⟩ := Option.ne_none_iff_exists'.mp
    (destroy_processor_keeps env creds hkeep c.processor st (by simp [hc]))
  have h1 := set_processor_live env creds p1 st c a hp hc ha
  have hslot1 : ((destroy_processor env c.processor st).world.set_server creds
      (some { a with processor := p1 })).server_creds creds
        = some { a with processor := p1 } := by
    simp [World.set_server]
  obtain ⟨b, hb⟩ := Option.ne_none_iff_exists'.mp
    (destroy_processor_keeps env creds hkeep p1
      { world := (destroy_processor env c.processor st).world.set_server creds
                        (some { a with processor := p1 }),
        trace := (destroy_processor env c.processor st).trace }
      (by simp [World.set_server]))
  have h2 := set_processor_live env creds p2
    { world := (destroy_processor env c.processor st).world.set_server creds
                        (some { a with processor := p1 }),
      trace := (destroy_processor env c.processor st).trace }
    { a with processor := p1 } b hp hslot1 hb
  refine ⟨_, _, { a with processor := p1 }, { b with processor := p2 }, h1, h2,
    destroy_processor_trace env c.processor st, hslot1, rfl,
    destroy_processor_trace env p1 _, by simp [World.set_server], rfl, ?_⟩
  intro hinst
  have hw := destroy_processor_world env p1
    { world := (destroy_processor env c.processor st).world.set_server creds
                        (some { a with processor := p1 }),
      trace := (destroy_processor env c.processor st).trace }
  rw [if_pos hinst] at hw
  refine ⟨b, ?_, ?_⟩
  · rw [← hw]; exact hb
  · rw [← hw]

/-- C10 amended, at a concrete input: on the credential at address 3 of
`state0`, install a processor with destroy function 42 and state 52, then one
with destroy function 43 and state 53. -/
theorem set_processor_twice_witness :
    ∃ st1 st2 c1 c2,
      grpc_server_credentials_set_auth_metadata_processor env0 3
        { process := 40, destroy := 42, state := 52 } state0 = some st1 ∧
      grpc_server_credentials_set_auth_metadata_processor env0 3
        { process := 40, destroy := 43, state := 53 } st1 = some st2 ∧
      st1.trace = state0.trace ++ [Event.processor_destroy 41 51] ∧
      st1.world.server_creds 3 = some c1 ∧
      c1.processor = { process := 40, destroy := 42, state := 52 } ∧
      st2.trace = st1.trace ++ [Event.processor_destroy 42 52] ∧
      st2.world.server_creds 3 = some c2 ∧
      c2.processor = { process := 40, destroy := 43, state := 53 } := by
  obtain ⟨st1, st2, c1, c2, h1, h2, t1, s1, e1, t2, s2, e2, _⟩ :=
    (set_processor_twice env0 3 { process := 40, destroy := 42, state := 52 }
      { process := 40, destroy := 43, state := 53 } state0 server_busy (by decide) rfl
      (fun _ _ _ hw => hw)).2
  exact ⟨st1, st2, c1, c2, h1, h2, t1, s1, e1, t2, s2, e2⟩

/-! ### Duplicate without call credentials -/

/-- C11, the fallback of `duplicate_without_call_credentials`.  For a channel
credential that is absent, or live with no table or with a table lacking the
entry, the call is `grpc_channel_credentials_ref` of the input: same result,
same effect on the state, which on a live credential is the same address back
and the refcount raised by exactly 1.  For a live credential whose table
provides the entry, the result and the memory afterwards are exactly what the
entry produces on the input, one event is added to the trace, and the core
itself changes no refcount. -/
theorem duplicate_without_call_credentials_fallback (env : Env) (creds : Ptr) (st : State) :
    ((creds = NULL ∨ ∃ c, st.world.channel_creds creds = some c ∧
        (c.vtable = none ∨
          ∃ vt, c.vtable = some vt ∧ vt.duplicate_without_call_credentials = NULL)) →
      grpc_channel_credentials_duplicate_without_call_credentials env creds st =
        grpc_channel_credentials_ref creds st) ∧
    (∀ c, creds ≠ NULL → st.world.channel_creds creds = some c →
      grpc_channel_credentials_ref creds st =
        some (creds, { st with world := (st.world.set_channel creds
                        (some { c with refcount := c.refcount + 1 })) })) ∧
    (∀ c vt, creds ≠ NULL → st.world.channel_creds creds = some c → c.vtable = some vt →
      vt.duplicate_without_call_credentials ≠ NULL →
      grpc_channel_credentials_duplicate_without_call_credentials env creds st =
        some ((env.duplicate_without_call_credentials
                vt.duplicate_without_call_credentials creds st.world).1,
              { world := (env.duplicate_without_call_credentials
                  vt.duplicate_without_call_credentials creds st.world).2,
                trace := st.trace ++ [Event.duplicate_without_call_credentials
                  vt.duplicate_without_call_credentials creds] })) := by
  refine ⟨?_, ?_, ?_⟩
  · rintro (h | ⟨c, hc, hv | ⟨vt, hv, hd⟩⟩)
    · simp [grpc_channel_credentials_duplicate_without_call_credentials, h]
    · by_cases hp : creds = NULL
      · simp [grpc_channel_credentials_duplicate_without_call_credentials, hp]
      · simp [grpc_channel_credentials_duplicate_without_call_credentials, hp, hc, hv]
    · by_cases hp : creds = NULL
      · simp [grpc_channel_credentials_duplicate_without_call_credentials, hp]
      · simp [grpc_channel_credentials_duplicate_without_call_credentials, hp, hc, hv, hd]
  · intro c hp hc
    exact channel_ref_live creds st c hp hc
  · intro c vt hp hc hv hd
    simp [grpc_channel_credentials_duplicate_without_call_credentials, hp, hc, hv, hd]

/-- C11 at concrete inputs: the credential at address 2 of `state0`, whose
table lacks the entry, and the one at address 1, whose table has it. -/
theorem duplicate_without_call_credentials_fallback_witness :
    grpc_channel_credentials_duplicate_without_call_credentials env0 2 state0 =
      grpc_channel_credentials_ref 2 state0 ∧
    grpc_channel_credentials_ref 2 state0 =
      some (2, { state0 with world := (state0.world.set_channel 2
                  (some { channel_bare with refcount := channel_bare.refcount + 1 })) }) ∧
    grpc_channel_credentials_duplicate_without_call_credentials env0 1 state0 =
      some ((env0.duplicate_without_call_credentials 13 1 state0.world).1,
            { world := (env0.duplicate_without_call_credentials 13 1 state0.world).2,
              trace := state0.trace ++ [Event.duplicate_without_call_credentials 13 1] }) :=
  ⟨(duplicate_without_call_credentials_fallback env0 2 state0).1
     (Or.inr ⟨channel_bare, rfl, Or.inr ⟨⟨NULL, NULL, NULL⟩, rfl, rfl⟩⟩),
   (duplicate_without_call_credentials_fallback env0 2 state0).2.1 channel_bare
     (by decide) rfl,
   (duplicate_without_call_credentials_fallback env0 1 state0).2.2 channel0 ⟨11, 12, 13⟩
     (by decide) rfl rfl (by decide)⟩

/-! ### Server teardown -/

/-- Release of the last reference to a server credential whose `destruct`
entry, when present, leaves the envelope as it is. -/
theorem server_unref_one_frame (env : Env) (p : Ptr) (hp : p ≠ NULL) (st : State)
    (c : grpc_server_credentials) (vt : grpc_server_credentials_vtable)
    (hc : st.world.server_creds p = some c) (hvt : c.vtable = some vt)
    (hframe : ∀ w, (env.server_destruct vt.destruct p w).server_creds p = w.server_creds p)
    (hk : c.refcount = 1) :
    ∃ st2, grpc_server_credentials_unref env p st = some st2 ∧
      st2.trace = st.trace ++
        ((if vt.destruct ≠ NULL then [Event.server_destruct vt.destruct p] else []) ++
         (if c.processor.destroy ≠ NULL ∧ c.processor.state ≠ NULL
          then [Event.processor_destroy c.processor.destroy c.processor.state] else []) ++
         [Event.free p]) ∧
      st2.world.server_creds p = none := by
  by_cases hd : vt.destruct = NULL
  · simp [grpc_server_credentials_unref, hp, hc, gpr_unref, hk, hvt, hd, World.set_server,
      destroy_processor_trace]
  · simp [grpc_server_credentials_unref, hp, hc, gpr_unref, hk, hvt, hd, hframe,
      World.set_server, destroy_processor_trace]

/-- C12, server teardown order.  Take a live server credential at `p` whose
table's `destruct` entry, when present, leaves the envelope at `p` as it is.
With refcount 1, `grpc_server_credentials_unref` succeeds and adds to the trace
exactly: the `destruct` invocation if the entry is present, then the
processor's destroy on the processor's state if and only if both are
non-null, then the free of the envelope, which is gone from memory afterwards;
so each of the three occurs at most once.  With a refcount greater than 1 it
succeeds and adds nothing to the trace. -/
theorem server_teardown_order (env : Env) (p : Ptr) (hp : p ≠ NULL) (st : State)
    (c : grpc_server_credentials) (vt : grpc_server_credentials_vtable)
    (hc : st.world.server_creds p = some c) (hvt : c.vtable = some vt)
    (hframe : ∀ w, (env.server_destruct vt.destruct p w).server_creds p = w.server_creds p) :
    (c.refcount = 1 →
      ∃ st2, grpc_server_credentials_unref env p st = some st2 ∧
        st2.trace = st.trace ++
          ((if vt.destruct ≠ NULL then [Event.server_destruct vt.destruct p] else []) ++
           (if c.processor.destroy ≠ NULL ∧ c.processor.state ≠ NULL
            then [Event.processor_destroy c.processor.destroy c.processor.state] else []) ++
           [Event.free p]) ∧
        st2.world.server_creds p = none) ∧
    (1 < c.refcount →
      ∃ st2, grpc_server_credentials_unref env p st = some st2 ∧ st2.trace = st.trace) := by
  constructor
  · intro hk
    exact server_unref_one_frame env p hp st c vt hc hvt hframe hk
  · intro hk
    exact ⟨_, server_unref_live env p st c hp hc (by omega), rfl⟩

/-- C12 at concrete inputs: the server credential at address 3 of `state0`
(refcount 1, `destruct` entry 31, processor with destroy function 41 and state
51), and the same credential with refcount 2. -/
theorem server_teardown_order_witness :
    (∃ st2, grpc_server_credentials_unref env0 3 state0 = some st2 ∧
      st2.trace = state0.trace ++ ([Event.server_destruct 31 3] ++
        [Event.processor_destroy 41 51] ++ [Event.free 3]) ∧
      st2.world.server_creds 3 = none) ∧
    (∃ st2, grpc_server_credentials_unref env0 3
        { state0 with world :=
            state0.world.set_server 3 (some { server_busy with refcount := 2 }) } = some st2 ∧
      st2.trace = state0.trace) :=
  ⟨(server_teardown_order env0 3 (by decide) state0 server_busy ⟨31, 32⟩ rfl rfl
      (fun _ => rfl)).1 rfl,
   (server_teardown_order env0 3 (by decide)
      { state0 with world :=
          state0.world.set_server 3 (some { server_busy with refcount := 2 }) }
      { server_busy with refcount := 2 } ⟨31, 32⟩ rfl rfl (fun _ => rfl)).2 (by decide)⟩

/-! ### Absent credentials -/

/-- C14, absent credentials are safe.  For the three kinds, acquire on the
absent credential returns absent and release on it does nothing; cancel on an
absent call credential, or on a live one whose table lacks the cancel entry,
does nothing.  In each case the state after the call is the state before it:
no refcount, processor slot or metadata array changes and nothing is added to
the trace. -/
theorem absent_credentials_safe (env : Env) (st : State) :
    (grpc_channel_credentials_ref NULL st = some (NULL, st) ∧
     grpc_call_credentials_ref NULL st = some (NULL, st) ∧
     grpc_server_credentials_ref NULL st = some (NULL, st)) ∧
    (grpc_channel_credentials_unref env NULL st = some st ∧
     grpc_call_credentials_unref env NULL st = some st ∧
     grpc_server_credentials_unref env NULL st = some st) ∧
    (∀ md_array error,
      grpc_call_credentials_cancel_get_request_metadata env NULL md_array error st = some st) ∧
    (∀ creds md_array error c vt, st.world.call_creds creds = some c → c.vtable = some vt →
      vt.cancel_get_request_metadata = NULL →
      grpc_call_credentials_cancel_get_request_metadata env creds md_array error st =
        some st) := by
  refine ⟨⟨?_, ?_, ?_⟩, ⟨?_, ?_, ?_⟩, ?_, ?_⟩
  · simp [grpc_channel_credentials_ref]
  · simp [grpc_call_credentials_ref]
  · simp [grpc_server_credentials_ref]
  · simp [grpc_channel_credentials_unref]
  · simp [grpc_call_credentials_unref]
  · simp [grpc_server_credentials_unref]
  · intro md_array error
    simp [grpc_call_credentials_cancel_get_request_metadata]
  · intro creds md_array error c vt hc hvt hn
    by_cases hp : creds = NULL
    · simp [grpc_call_credentials_cancel_get_request_metadata, hp]
    · simp [grpc_call_credentials_cancel_get_request_metadata, hp, hc, hvt, hn]

/-- C14 at a concrete input: cancel on the call credential at address 2 of
`state0`, whose table is empty. -/
theorem absent_credentials_safe_witness :
    grpc_call_credentials_cancel_get_request_metadata env0 2 7 9 state0 = some state0 :=
  (absent_credentials_safe env0 state0).2.2.2 2 7 9 call_bare ⟨NULL, NULL, NULL⟩ rfl rfl rfl

/-! ### Metadata fetch: delegation -/

/-- C16, metadata-fetch delegation is transparent.  For a live call credential
whose table has a `get_request_metadata` entry, the fetch returns exactly the
boolean the entry returns when called with the same credential, polling
entity, auth context, metadata array, completion closure and error slot; the
memory afterwards is exactly the memory the entry leaves (the core appends
nothing to the array and changes no refcount), and the trace grows by that one
call of the entry (the core calls nothing else, the completion closure
included). -/
theorem get_request_metadata_delegates (env : Env)
    (creds pollent context md_array on_request_metadata error : Ptr) (st : State)
    (c : grpc_call_credentials) (vt : grpc_call_credentials_vtable)
    (hp : creds ≠ NULL) (hc : st.world.call_creds creds = some c) (hvt : c.vtable = some vt)
    (hg : vt.get_request_metadata ≠ NULL) :
    grpc_call_credentials_get_request_metadata env creds pollent context md_array
        on_request_metadata error st =
      some ((env.get_request_metadata vt.get_request_metadata creds pollent context md_array
              on_request_metadata error st.world).1,
            { world := (env.get_request_metadata vt.get_request_metadata creds pollent context
                md_array on_request_metadata error st.world).2,
              trace := st.trace ++ [Event.get_request_metadata vt.get_request_metadata creds
                pollent context md_array on_request_metadata error] }) := by
  simp [grpc_call_credentials_get_request_metadata, hp, hc, hvt, hg]

/-- C16 at a concrete input: the call credential at address 1 of `state0`,
whose entry is the function 22. -/
theorem get_request_metadata_delegates_witness :
    grpc_call_credentials_get_request_metadata env0 1 5 6 7 8 9 state0 =
      some ((env0.get_request_metadata 22 1 5 6 7 8 9 state0.world).1,
            { world := (env0.get_request_metadata 22 1 5 6 7 8 9 state0.world).2,
              trace := state0.trace ++ [Event.get_request_metadata 22 1 5 6 7 8 9] }) :=
  get_request_metadata_delegates env0 1 5 6 7 8 9 state0 call0 ⟨21, 22, 23⟩ (by decide) rfl rfl
    (by decide)

/-! ### Releases that do not reach zero -/

/-- C18, for the three kinds: on a live credential with refcount k ≥ 2,
release yields the same state except that the refcount is k - 1: the trace is
unchanged (no `destruct`, no processor destructor, no free), the envelope is
still in memory with the same table and (for server) the same processor slot,
and nothing else in memory changes.  Likewise acquire returns the address it
was given and yields the same state except that the refcount is k + 1. -/
theorem release_above_one_only_counts (env : Env) (p : Ptr) (hp : p ≠ NULL) (st : State) :
    (∀ c, st.world.channel_creds p = some c → 2 ≤ c.refcount →
      grpc_channel_credentials_unref env p st =
        some { st with world :=
                (st.world.set_channel p (some { c with refcount := c.refcount - 1 })) } ∧
      grpc_channel_credentials_ref p st =
        some (p, { st with world :=
                    (st.world.set_channel p (some { c with refcount := c.refcount + 1 })) })) ∧
    (∀ c, st.world.call_creds p = some c → 2 ≤ c.refcount →
      grpc_call_credentials_unref env p st =
        some { st with world :=
                (st.world.set_call p (some { c with refcount := c.refcount - 1 })) } ∧
      grpc_call_credentials_ref p st =
        some (p, { st with world :=
                    (st.world.set_call p (some { c with refcount := c.refcount + 1 })) })) ∧
    (∀ c, st.world.server_creds p = some c → 2 ≤ c.refcount →
      grpc_server_credentials_unref env p st =
        some { st with world :=
                (st.world.set_server p (some { c with refcount := c.refcount - 1 })) } ∧
      grpc_server_credentials_ref p st =
        some (p, { st with world :=
                    (st.world.set_server p (some { c with refcount := c.refcount + 1 })) })) :=
  ⟨fun c hc hk => ⟨channel_unref_live env p st c hp hc (by omega), channel_ref_live p st c hp hc⟩,
   fun c hc hk => ⟨call_unref_live env p st c hp hc (by omega), call_ref_live p st c hp hc⟩,
   fun c hc hk => ⟨server_unref_live env p st c hp hc (by omega), server_ref_live p st c hp hc⟩⟩

/-- C18 at a concrete input: the server credential at address 3 of `state0`
with its refcount set to 2; the release leaves refcount 1, the same table and
the same processor slot, and an unchanged trace. -/
theorem release_above_one_only_counts_witness :
    grpc_server_credentials_unref env0 3
        { state0 with world :=
            (state0.world.set_server 3 (some { server_busy with refcount := 2 })) } =
      some { state0 with world :=
              ((state0.world.set_server 3 (some { server_busy with refcount := 2 })).set_server
                3 (some { server_busy with refcount := 2 - 1 })) } :=
  ((release_above_one_only_counts env0 3 (by decide)
      { state0 with world :=
          (state0.world.set_server 3 (some { server_busy with refcount := 2 })) }).2.2
      { server_busy with refcount := 2 } rfl (by decide)).1

/-! ### Metadata requests -/

/-- C13, reference balance of a metadata request.  For a live call credential
`c` at `p` with refcount at least 1 and a block `r` handed out by the
allocator, create succeeds and returns `r`; the request at `r` has `p` as its
`creds` field and a zeroed response; the refcount of `c` is raised by exactly
1 and the trace is unchanged.  Destroying that request succeeds, brings the
refcount of `c` back to its starting value, frees the request and adds to the
trace only the free of `r`: `destruct` is not invoked. -/
theorem metadata_request_reference_balance (env : Env) (r p : Ptr) (st : State)
    (c : grpc_call_credentials) (hr : r ≠ NULL) (hp : p ≠ NULL)
    (hc : st.world.call_creds p = some c) (hk : 1 ≤ c.refcount) :
    ∃ st1 st2,
      grpc_credentials_metadata_request_create r p st = some (r, st1) ∧
      st1.world.requests r = some { creds := p, response := zero_response } ∧
      st1.world.call_creds p = some { c with refcount := c.refcount + 1 } ∧
      st1.trace = st.trace ∧
      grpc_credentials_metadata_request_destroy env r st1 = some st2 ∧
      st2.world.call_creds p = some c ∧
      st2.world.requests r = none ∧
      st2.trace = st.trace ++ [Event.free r] := by
  obtain ⟨wA, hwA⟩ : ∃ w : World, w = st.world.set_request r
      (some { creds := NULL, response := zero_response }) := ⟨_, rfl⟩
  have hA : gpr_zalloc r st = some { world := wA, trace := st.trace } := by
    simp [gpr_zalloc, hr, hwA]
  have hAc : wA.call_creds p = some c := by
    rw [hwA]; simpa [World.set_request] using hc
  have hAr : wA.requests r = some { creds := NULL, response := zero_response } := by
    rw [hwA]; simp [World.set_request]
  obtain ⟨wB, hwB⟩ : ∃ w : World, w = wA.set_call p
      (some { c with refcount := c.refcount + 1 }) := ⟨_, rfl⟩
  have hB : grpc_call_credentials_ref p { world := wA, trace := st.trace } =
      some (p, { world := wB, trace := st.trace }) := by
    rw [call_ref_live p _ c hp hAc, hwB]
  have hBr : wB.requests r = some { creds := NULL, response := zero_response } := by
    rw [hwB]; simpa [World.set_call] using hAr
  have hBc : wB.call_creds p = some { c with refcount := c.refcount + 1 } := by
    rw [hwB]; simp [World.set_call]
  obtain ⟨wC, hwC⟩ : ∃ w : World, w = wB.set_request r
      (some { creds := p, response := zero_response }) := ⟨_, rfl⟩
  have hC : grpc_credentials_metadata_request_create r p st =
      some (r, { world := wC, trace := st.trace }) := by
    simp only [grpc_credentials_metadata_request_create, hA, hB, hBr, hwC]
  have hCr : wC.requests r = some { creds := p, response := zero_response } := by
    rw [hwC]; simp [World.set_request]
  have hCc : wC.call_creds p = some { c with refcount := c.refcount + 1 } := by
    rw [hwC]; simpa [World.set_request] using hBc
  obtain ⟨wD, hwD⟩ : ∃ w : World, w = wC.set_call p (some c) := ⟨_, rfl⟩
  have hcc : ({ c with refcount := c.refcount + 1 - 1 } : grpc_call_credentials) = c := by
    cases c; simp
  have hD : grpc_call_credentials_unref env p { world := wC, trace := st.trace } =
      some { world := wD, trace := st.trace } := by
    rw [call_unref_live env p _ _ hp hCc (by simp only; omega), hwD]
    simp only [hcc]
  have hDr : wD.requests r = some { creds := p, response := zero_response } := by
    rw [hwD]; simpa [World.set_call] using hCr
  have hDc : wD.call_creds p = some c := by
    rw [hwD]; simp [World.set_call]
  have hE : grpc_credentials_metadata_request_destroy env r { world := wC, trace := st.trace } =
      some { world := wD.set_request r none, trace := st.trace ++ [Event.free r] } := by
    simp [grpc_credentials_metadata_request_destroy, hr, hCr, hD, hDr,
      grpc_http_response_destroy, zero_response]
  exact ⟨_, _, hC, hCr, hCc, rfl, hE, by simpa [World.set_request] using hDc,
    by simp [World.set_request], rfl⟩

/-- C13 at a concrete input: the call credential at address 1 of `state0` and
the block at address 200. -/
theorem metadata_request_reference_balance_witness :
    ∃ st1 st2,
      grpc_credentials_metadata_request_create 200 1 state0 = some (200, st1) ∧
      st1.world.requests 200 = some { creds := 1, response := zero_response } ∧
      st1.world.call_creds 1 = some { call0 with refcount := call0.refcount + 1 } ∧
      st1.trace = state0.trace ∧
      grpc_credentials_metadata_request_destroy env0 200 st1 = some st2 ∧
      st2.world.call_creds 1 = some call0 ∧
      st2.world.requests 200 = none ∧
      st2.trace = state0.trace ++ [Event.free 200] :=
  metadata_request_reference_balance env0 200 1 state0 call0 (by decide) (by decide) rfl
    (by decide)

/-! ### Processors over the lifetime of a server credential -/

theorem replaced_append_last (d : grpc_auth_metadata_processor)
    (qs : List grpc_auth_metadata_processor) :
    replaced d qs ++ [last_installed d qs] = d :: qs := by
  induction qs generalizing d with
  | nil => rfl
  | cons q rest ih => simp [replaced, last_installed, ih]

/-- One installation on a live credential, with processor destructors that
leave the envelope alone: the processor found in the slot is destroyed if it
is installed, and the slot then holds the new processor. -/
theorem set_processor_frame (env : Env) (p : Ptr) (hp : p ≠ NULL)
    (hpd : ∀ fn s w, (env.processor_destroy fn s w).server_creds p = w.server_creds p)
    (q : grpc_auth_metadata_processor) (st : State) (c : grpc_server_credentials)
    (hc : st.world.server_creds p = some c) :
    ∃ st1, grpc_server_credentials_set_auth_metadata_processor env p q st = some st1 ∧
      st1.world.server_creds p = some { c with processor := q } ∧
      st1.trace = st.trace ++
        (if processor_installed c.processor then [destroy_event c.processor] else []) := by
  have hc1 : (destroy_processor env c.processor st).world.server_creds p = some c := by
    rw [destroy_processor_world]
    split
    · rw [hpd]; exact hc
    · exact hc
  refine ⟨_, set_processor_live env p q st c c hp hc hc1, by simp [World.set_server], ?_⟩
  rw [destroy_processor_trace]
  simp [processor_installed, destroy_event]

/-- A sequence of installations: the replaced processors that are installed
are destroyed, in order, and the slot ends up holding the last one. -/
theorem set_processors_frame (env : Env) (p : Ptr) (hp : p ≠ NULL)
    (hpd : ∀ fn s w, (env.processor_destroy fn s w).server_creds p = w.server_creds p)
    (qs : List grpc_auth_metadata_processor) :
    ∀ (st : State) (c : grpc_server_credentials), st.world.server_creds p = some c →
      ∃ st1, set_processors env p qs st = some st1 ∧
        st1.world.server_creds p =
          some { c with processor := last_installed c.processor qs } ∧
        st1.trace = st.trace ++
          ((replaced c.processor qs).filter processor_installed).map destroy_event := by
  induction qs with
  | nil =>
    intro st c hc
    exact ⟨st, rfl, by simpa [last_installed] using hc, by simp [replaced]⟩
  | cons q rest ih =>
    intro st c hc
    obtain ⟨st1, h1, hs1, ht1⟩ := set_processor_frame env p hp hpd q st c hc
    obtain ⟨st2, h2, hs2, ht2⟩ := ih st1 { c with processor := q } hs1
    refine ⟨st2, by simp [set_processors, h1, h2], by simpa [last_installed] using hs2, ?_⟩
    rw [ht2, ht1]
    by_cases hi : processor_installed c.processor = true
    · simp [replaced, List.filter_cons, hi]
    · simp [replaced, List.filter_cons, hi]

theorem destroy_events_nodup (qs : List grpc_auth_metadata_processor)
    (hnodup : (qs.map (fun q => q.state)).Nodup) :
    ((qs.filter processor_installed).map destroy_event).Nodup := by
  apply List.Nodup.of_map destroyed_state
  have hmap : List.map destroyed_state ((qs.filter processor_installed).map destroy_event) =
      (qs.filter processor_installed).map (fun q => q.state) := by
    simp [List.map_map, Function.comp_def, destroyed_state, destroy_event]
  rw [hmap]
  exact List.Nodup.sublist ((List.filter_sublist qs).map _) hnodup

theorem filter_destroy_events (l : List grpc_auth_metadata_processor) :
    (l.map destroy_event).filter is_processor_destroy = l.map destroy_event := by
  induction l with
  | nil => rfl
  | cons q rest ih => simp [List.filter_cons, destroy_event, is_processor_destroy, ih]

/-- The processor-destructor invocations among the events of a lifetime: those
of the replaced processors, then that of the last one at the final release. -/
theorem lifetime_destroy_events (c : grpc_server_credentials)
    (qs : List grpc_auth_metadata_processor)
    (hempty : processor_installed c.processor = false) (D : List Event)
    (hD : D.filter is_processor_destroy = []) (p : Ptr) :
    (((replaced c.processor qs).filter processor_installed).map destroy_event ++
        (D ++
         (if processor_installed (last_installed c.processor qs)
          then [destroy_event (last_installed c.processor qs)] else []) ++
         [Event.free p])).filter is_processor_destroy =
      (qs.filter processor_installed).map destroy_event := by
  have hsplit : (qs.filter processor_installed).map destroy_event =
      ((replaced c.processor qs).filter processor_installed).map destroy_event ++
        (if processor_installed (last_installed c.processor qs)
         then [destroy_event (last_installed c.processor qs)] else []) := by
    have h := congrArg (fun l => (l.filter processor_installed).map destroy_event)
      (replaced_append_last c.processor qs)
    simp only [List.filter_append, List.map_append, List.filter_cons, hempty,
      Bool.false_eq_true, if_false, List.filter_nil] at h
    rw [← h]
    by_cases hl : processor_installed (last_installed c.processor qs) = true
    · simp [hl]
    · simp [hl]
  rw [hsplit]
  simp only [List.filter_append, filter_destroy_events, hD, List.nil_append]
  by_cases hl : processor_installed (last_installed c.processor qs) = true
  · simp [hl, List.filter_cons, destroy_event, is_processor_destroy]
  · simp [hl, List.filter_cons, is_processor_destroy]

/-- C17, processors destroyed exactly once over a server credential's
lifetime.  Take a live server credential at `p` with refcount 1 and a slot
holding no installed processor, processor destructors and a `destruct` entry
that leave the envelope at `p` alone, and a list `qs` of processors with
pairwise distinct states.  Installing the processors of `qs` in order
succeeds and destroys exactly the replaced processors that are installed; the
release that follows succeeds; and over the whole run (events `tr`) the
processor-destructor invocations are exactly those of the installed processors
of `qs`, in order: each installed processor of `qs` has its destroy invoked on
its state exactly once, and every invocation is that of an installed
processor of `qs`. -/
theorem processors_destroyed_once (env : Env) (p : Ptr) (hp : p ≠ NULL) (st : State)
    (c : grpc_server_credentials) (vt : grpc_server_credentials_vtable)
    (hc : st.world.server_creds p = some c) (hk : c.refcount = 1) (hvt : c.vtable = some vt)
    (hempty : processor_installed c.processor = false)
    (qs : List grpc_auth_metadata_processor)
    (hnodup : (qs.map (fun q => q.state)).Nodup)
    (hpd : ∀ fn s w, (env.processor_destroy fn s w).server_creds p = w.server_creds p)
    (hds : ∀ w, (env.server_destruct vt.destruct p w).server_creds p = w.server_creds p) :
    ∃ st1 st2 tr,
      set_processors env p qs st = some st1 ∧
      st1.trace = st.trace ++
        ((replaced c.processor qs).filter processor_installed).map destroy_event ∧
      grpc_server_credentials_unref env p st1 = some st2 ∧
      st2.trace = st.trace ++ tr ∧
      tr.filter is_processor_destroy = (qs.filter processor_installed).map destroy_event ∧
      (∀ q ∈ qs, processor_installed q = true → tr.count (destroy_event q) = 1) ∧
      (∀ fn s, Event.processor_destroy fn s ∈ tr →
        ∃ q ∈ qs, processor_installed q = true ∧ q.destroy = fn ∧ q.state = s) := by
  obtain ⟨st1, h1, hs1, ht1⟩ := set_processors_frame env p hp hpd qs st c hc
  obtain ⟨st2, h2, ht2, _⟩ := server_unref_one_frame env p hp st1
    { c with processor := last_installed c.processor qs } vt hs1 hvt hds hk
  have hL : (if (last_installed c.processor qs).destroy ≠ NULL ∧
        (last_installed c.processor qs).state ≠ NULL
      then [Event.processor_destroy (last_installed c.processor qs).destroy
              (last_installed c.processor qs).state] else []) =
      (if processor_installed (last_installed c.processor qs)
       then [destroy_event (last_installed c.processor qs)] else []) := by
    simp [processor_installed, destroy_event]
  simp only [hL] at ht2
  have hD : (if vt.destruct ≠ NULL then [Event.server_destruct vt.destruct p]
      else []).filter is_processor_destroy = [] := by
    split <;> simp [is_processor_destroy]
  have hfilter := lifetime_destroy_events c qs hempty _ hD p
  refine ⟨st1, st2, _, h1, ht1, h2, ?_, hfilter, ?_, ?_⟩
  · rw [ht2, ht1, List.append_assoc]
  · intro q hq hi
    have hpred : is_processor_destroy (destroy_event q) = true := rfl
    rw [← List.count_filter hpred, hfilter]
    apply List.count_eq_one_of_mem (destroy_events_nodup qs hnodup)
    exact List.mem_map.mpr ⟨q, List.mem_filter.mpr ⟨hq, hi⟩, rfl⟩
  · intro fn s hmem
    have hin : Event.processor_destroy fn s ∈
        (qs.filter processor_installed).map destroy_event := by
      rw [← hfilter]
      exact List.mem_filter.mpr ⟨hmem, rfl⟩
    obtain ⟨q, hq, he⟩ := List.mem_map.mp hin
    obtain ⟨hq1, hq2⟩ := List.mem_filter.mp hq
    simp only [destroy_event, Event.processor_destroy.injEq] at he
    exact ⟨q, hq1, hq2, he.1, he.2⟩

/-- C17 at a concrete input: on the server credential at address 1 of `state0`
(empty slot, refcount 1), install a processor with destroy function 42 and
state 52, then one with destroy function 43 and state 53, then release. -/
theorem processors_destroyed_once_witness :
    ∃ st1 st2 tr,
      set_processors env0 1
        [{ process := 40, destroy := 42, state := 52 },
         { process := 40, destroy := 43, state := 53 }] state0 = some st1 ∧
      st1.trace = state0.trace ++ [Event.processor_destroy 42 52] ∧
      grpc_server_credentials_unref env0 1 st1 = some st2 ∧
      st2.trace = state0.trace ++ tr ∧
      tr.filter is_processor_destroy =
        [Event.processor_destroy 42 52, Event.processor_destroy 43 53] := by
  obtain ⟨st1, st2, tr, h1, t1, h2, t2, hf, _, _⟩ :=
    processors_destroyed_once env0 1 (by decide) state0 server0 ⟨31, 32⟩ rfl rfl rfl rfl
      [{ process := 40, destroy := 42, state := 52 },
       { process := 40, destroy := 43, state := 53 }]
      (by decide) (fun _ _ _ => rfl) (fun _ => rfl)
  exact ⟨st1, st2, tr, h1, t1, h2, t2, hf⟩

end Grpc
